import Mathlib

/-!
# Binary log event definitions (`libbinlogapi/include/binlog_event.h`)

A shallow embedding of the buffer helpers, the event-type enumeration, the
layout constants and the event classes declared in `binlog_event.h`, followed
by theorems about them.

Conventions of the embedding:

* a pointer is the natural number of the address it holds; the difference of
  two pointers is an integer (`ptrdiff_t`);
* memory is a function from addresses to byte values; a cast to
  `unsigned char` is `% 256`, a conversion to a 32-bit unsigned integer is
  `% 2 ^ 32`;
* a function that writes through pointer arguments takes the pointed-to values
  in a state record and returns the updated record next to its return value.
-/

namespace binary_log

/-! ## Buffer helpers -/

/-- Conversion of an integer to `uint32_t`: reduction modulo `2 ^ 32`. -/
def to_uint32 (x : Int) : Nat := (x % (2 ^ 32 : Int)).toNat

/-- Embedding of `available_buffer<uint32_t>` (lines 130-135):
`return buf_len - (buf_current - buf_start);`.
The pointer difference is a `ptrdiff_t`, the subtraction is carried out in the
signed type and the result is converted to the return type `T = uint32_t`. -/
def available_buffer (buf_start buf_current : Nat) (buf_len : Nat) : Nat :=
  to_uint32 ((buf_len : Int) - ((buf_current : Int) - (buf_start : Int)))

/-- Embedding of `valid_buffer_range<uint32_t>` (lines 149-155):
`return (jump <= available_buffer(buf_start, buf_current, buf_len));`. -/
def valid_buffer_range (jump : Nat) (buf_start buf_current : Nat) (buf_len : Nat) : Bool :=
  decide (jump ≤ available_buffer buf_start buf_current buf_len)

/-- The values `read_str_at_most_255_bytes` reaches through its pointer
arguments: the cursor `*buf`, the output pointer `*str`, the output length
`*len`, and the addresses it has dereferenced through `*buf` so far, in
program order. -/
structure Str_args where
  buf : Nat
  str : Nat
  len : Nat
  loads : List Nat
deriving DecidableEq

/-- Embedding of `read_str_at_most_255_bytes` (lines 263-274).  `mem a` is the byte stored at
address `a`; the first component of the result is the returned `int`. -/
def read_str_at_most_255_bytes (mem : Nat → Nat) (buf_end : Nat) (a : Str_args) :
    Nat × Str_args :=
  -- if (*buf + ((unsigned int) (unsigned char) **buf) >= buf_end) return 1;
  let c := mem a.buf % 256
  let a1 := { a with loads := a.loads ++ [a.buf] }
  if a1.buf + c ≥ buf_end then (1, a1)
  else
    -- *len= (unsigned char) **buf;
    let a2 := { a1 with len := mem a1.buf % 256, loads := a1.loads ++ [a1.buf] }
    -- *str= (*buf) + 1;
    let a3 := { a2 with str := a2.buf + 1 }
    -- (*buf)+= (unsigned int)*len + 1;
    let a4 := { a3 with buf := a3.buf + (a3.len % 2 ^ 32 + 1) % 2 ^ 32 }
    -- return 0;
    (0, a4)

/-- The bytes stored at the `n` addresses starting at `p`. -/
def bytes_at (mem : Nat → Nat) (p n : Nat) : List Nat :=
  (List.range n).map (fun i => mem (p + i))

/-- A memory holding the bytes `l` from address `base` on (zero elsewhere). -/
def mem_of (base : Nat) (l : List Nat) : Nat → Nat :=
  fun a => if base ≤ a then l.getD (a - base) 0 else 0

/-! ## Event types -/

/-- Enumerators of `enum Log_event_type` (lines 302-389), in declaration order. -/
inductive Log_event_type where
  | UNKNOWN_EVENT
  | START_EVENT_V3
  | QUERY_EVENT
  | STOP_EVENT
  | ROTATE_EVENT
  | INTVAR_EVENT
  | LOAD_EVENT
  | SLAVE_EVENT
  | CREATE_FILE_EVENT
  | APPEND_BLOCK_EVENT
  | EXEC_LOAD_EVENT
  | DELETE_FILE_EVENT
  | NEW_LOAD_EVENT
  | RAND_EVENT
  | USER_VAR_EVENT
  | FORMAT_DESCRIPTION_EVENT
  | XID_EVENT
  | BEGIN_LOAD_QUERY_EVENT
  | EXECUTE_LOAD_QUERY_EVENT
  | TABLE_MAP_EVENT
  | PRE_GA_WRITE_ROWS_EVENT
  | PRE_GA_UPDATE_ROWS_EVENT
  | PRE_GA_DELETE_ROWS_EVENT
  | WRITE_ROWS_EVENT_V1
  | UPDATE_ROWS_EVENT_V1
  | DELETE_ROWS_EVENT_V1
  | INCIDENT_EVENT
  | HEARTBEAT_LOG_EVENT
  | IGNORABLE_LOG_EVENT
  | ROWS_QUERY_LOG_EVENT
  | WRITE_ROWS_EVENT
  | UPDATE_ROWS_EVENT
  | DELETE_ROWS_EVENT
  | GTID_LOG_EVENT
  | ANONYMOUS_GTID_LOG_EVENT
  | PREVIOUS_GTIDS_LOG_EVENT
  | USER_DEFINED_EVENT
  | ENUM_END_EVENT
deriving DecidableEq

/-- The integer value of each enumerator of `Log_event_type`: the explicit
initialiser where the source gives one; `ENUM_END_EVENT` has none and takes the
value of the preceding enumerator plus one. -/
def Log_event_type.val : Log_event_type → Nat
  | .UNKNOWN_EVENT => 0
  | .START_EVENT_V3 => 1
  | .QUERY_EVENT => 2
  | .STOP_EVENT => 3
  | .ROTATE_EVENT => 4
  | .INTVAR_EVENT => 5
  | .LOAD_EVENT => 6
  | .SLAVE_EVENT => 7
  | .CREATE_FILE_EVENT => 8
  | .APPEND_BLOCK_EVENT => 9
  | .EXEC_LOAD_EVENT => 10
  | .DELETE_FILE_EVENT => 11
  | .NEW_LOAD_EVENT => 12
  | .RAND_EVENT => 13
  | .USER_VAR_EVENT => 14
  | .FORMAT_DESCRIPTION_EVENT => 15
  | .XID_EVENT => 16
  | .BEGIN_LOAD_QUERY_EVENT => 17
  | .EXECUTE_LOAD_QUERY_EVENT => 18
  | .TABLE_MAP_EVENT => 19
  | .PRE_GA_WRITE_ROWS_EVENT => 20
  | .PRE_GA_UPDATE_ROWS_EVENT => 21
  | .PRE_GA_DELETE_ROWS_EVENT => 22
  | .WRITE_ROWS_EVENT_V1 => 23
  | .UPDATE_ROWS_EVENT_V1 => 24
  | .DELETE_ROWS_EVENT_V1 => 25
  | .INCIDENT_EVENT => 26
  | .HEARTBEAT_LOG_EVENT => 27
  | .IGNORABLE_LOG_EVENT => 28
  | .ROWS_QUERY_LOG_EVENT => 29
  | .WRITE_ROWS_EVENT => 30
  | .UPDATE_ROWS_EVENT => 31
  | .DELETE_ROWS_EVENT => 32
  | .GTID_LOG_EVENT => 33
  | .ANONYMOUS_GTID_LOG_EVENT => 34
  | .PREVIOUS_GTIDS_LOG_EVENT => 35
  | .USER_DEFINED_EVENT => 36
  | .ENUM_END_EVENT => 36 + 1

/-- The enumerators of `Log_event_type` that name an event type, in declaration
order (all but the end marker). -/
def Log_event_type.enumerators : List Log_event_type :=
  [.UNKNOWN_EVENT, .START_EVENT_V3, .QUERY_EVENT, .STOP_EVENT, .ROTATE_EVENT, .INTVAR_EVENT,
   .LOAD_EVENT, .SLAVE_EVENT, .CREATE_FILE_EVENT, .APPEND_BLOCK_EVENT, .EXEC_LOAD_EVENT,
   .DELETE_FILE_EVENT, .NEW_LOAD_EVENT, .RAND_EVENT, .USER_VAR_EVENT,
   .FORMAT_DESCRIPTION_EVENT, .XID_EVENT, .BEGIN_LOAD_QUERY_EVENT, .EXECUTE_LOAD_QUERY_EVENT,
   .TABLE_MAP_EVENT, .PRE_GA_WRITE_ROWS_EVENT, .PRE_GA_UPDATE_ROWS_EVENT,
   .PRE_GA_DELETE_ROWS_EVENT, .WRITE_ROWS_EVENT_V1, .UPDATE_ROWS_EVENT_V1,
   .DELETE_ROWS_EVENT_V1, .INCIDENT_EVENT, .HEARTBEAT_LOG_EVENT, .IGNORABLE_LOG_EVENT,
   .ROWS_QUERY_LOG_EVENT, .WRITE_ROWS_EVENT, .UPDATE_ROWS_EVENT, .DELETE_ROWS_EVENT,
   .GTID_LOG_EVENT, .ANONYMOUS_GTID_LOG_EVENT, .PREVIOUS_GTIDS_LOG_EVENT, .USER_DEFINED_EVENT]

/-! ## Layout constants -/

/-- Source: `#define EVENT_TYPE_OFFSET    4` -/
def EVENT_TYPE_OFFSET : Nat := 4
/-- Source: `#define SERVER_ID_OFFSET     5` -/
def SERVER_ID_OFFSET : Nat := 5
/-- Source: `#define EVENT_LEN_OFFSET     9` -/
def EVENT_LEN_OFFSET : Nat := 9
/-- Source: `#define LOG_POS_OFFSET       13` -/
def LOG_POS_OFFSET : Nat := 13
/-- Source: `#define FLAGS_OFFSET         17` -/
def FLAGS_OFFSET : Nat := 17
/-- Source: `#define LOG_EVENT_HEADER_LEN 19U` -/
def LOG_EVENT_HEADER_LEN : Nat := 19
/-- Source: `#define OLD_HEADER_LEN       13U` -/
def OLD_HEADER_LEN : Nat := 13
/-- Source: `#define LOG_EVENT_MINIMAL_HEADER_LEN 19U` -/
def LOG_EVENT_MINIMAL_HEADER_LEN : Nat := 19

/-- The fields of the Common-Header as `(name, offset, size in bytes)`, in the
order of the table in the documentation of `Log_event_header` (lines 594-651).
The sizes are the ones that table gives ("4 byte unsigned integer", "1 byte
enumeration", "2 byte bitfield"); the offsets are the `*_OFFSET` constants of
lines 408-412, the first field starting the header. -/
def Common_header_fields : List (String × Nat × Nat) :=
  [("when", 0, 4),
   ("type_code", EVENT_TYPE_OFFSET, 1),
   ("unmasked_server_id", SERVER_ID_OFFSET, 4),
   ("data_written", EVENT_LEN_OFFSET, 4),
   ("log_pos", LOG_POS_OFFSET, 4),
   ("flags", FLAGS_OFFSET, 2)]

/-- Walks a field list from position `pos`: every field must start where the
previous one ended; the result is the position after the last field, or `none`
when a field leaves a gap or overlaps its predecessor. -/
def tiles_from (pos : Nat) : List (String × Nat × Nat) → Option Nat
  | [] => some pos
  | (_, off, size) :: rest => if off = pos then tiles_from (off + size) rest else none

/-- Modelled from the spec: `uint4korr` of `byteorder.h`, which is not part of
the sources at hand; the spec fixes all integers as little-endian, so the value
is the little-endian 32-bit integer of the four bytes at offset `off`. -/
def uint4korr (bytes : List Nat) (off : Nat) : Nat :=
  bytes.getD off 0 % 256 + 2 ^ 8 * (bytes.getD (off + 1) 0 % 256)
    + 2 ^ 16 * (bytes.getD (off + 2) 0 % 256) + 2 ^ 24 * (bytes.getD (off + 3) 0 % 256)

/-- Modelled from the spec: the 19 header bytes of scenario S1,
`00 00 00 00 0F 01 00 00 00 67 00 00 00 00 00 00 00 00 00`. -/
def S1_header : List Nat :=
  [0x00, 0x00, 0x00, 0x00, 0x0F, 0x01, 0x00, 0x00, 0x00, 0x67,
   0x00, 0x00, 0x00, 0x00, 0x00, 0x00, 0x00, 0x00, 0x00]

/-- Source: `static const int LOG_EVENT_TYPES= (ENUM_END_EVENT - 2);`
(`Binary_log_event`, line 796), an `int`. -/
def LOG_EVENT_TYPES : Int := (Log_event_type.ENUM_END_EVENT.val : Int) - 2

/-! ## Event classes -/

/-- Enumerators of `enum enum_binlog_checksum_alg` (lines 436-452). -/
inductive enum_binlog_checksum_alg where
  | BINLOG_CHECKSUM_ALG_OFF
  | BINLOG_CHECKSUM_ALG_CRC32
  | BINLOG_CHECKSUM_ALG_ENUM_END
  | BINLOG_CHECKSUM_ALG_UNDEF
deriving DecidableEq

/-- Data member of `class Log_event_footer` (lines 548-583). -/
structure Log_event_footer where
  checksum_alg : enum_binlog_checksum_alg
deriving DecidableEq

/-- Data members of `class Log_event_header` (lines 652-716); `type_code` holds
the stored integer of the enumeration. -/
structure Log_event_header where
  when_tv_sec : Int
  when_tv_usec : Int
  type_code : Nat
  unmasked_server_id : Nat
  data_written : Nat
  log_pos : Nat
  flags : Nat
deriving DecidableEq

/-- Data members of `class Binary_log_event` (lines 787-879). -/
structure Binary_log_event where
  m_header : Log_event_header
  m_footer : Log_event_footer
deriving DecidableEq

/-- Data members of `class Query_event` (lines 1267-1517); a `std::string` is
the list of its bytes. -/
structure Query_event extends Binary_log_event where
  m_user : List Nat
  m_host : List Nat
  m_catalog : List Nat
  m_time_zone_str : List Nat
  m_db : List Nat
  m_query : List Nat
  data_len : Nat
  query_data_written : Nat
  thread_id : Nat
  query_exec_time : Nat
  db_len : Nat
  error_code : Nat
  status_vars_len : Nat
  q_len : Nat
  flags2_inited : Bool
  sql_mode_inited : Bool
  charset_inited : Bool
  flags2 : Nat
  sql_mode : Nat
  auto_increment_increment : Nat
  auto_increment_offset : Nat
  charset : List Nat
  time_zone_len : Nat
  catalog_len : Nat
  lc_time_names_number : Nat
  charset_database_number : Nat
  table_map_for_update : Nat
  master_data_written : Nat
  mts_accessed_dbs : Nat
  mts_accessed_db_names : List (List Nat)
  commit_seq_no : Int

/-- Source: `Log_event_type get_type_code() { return QUERY_EVENT;}` (line 1456). -/
def Query_event.get_type_code (_self : Query_event) : Log_event_type := .QUERY_EVENT

/-- Data members of `class Rotate_event` (lines 1577-1612). -/
structure Rotate_event extends Binary_log_event where
  new_log_ident : Nat
  ident_len : Nat
  flags : Nat
  pos : Nat

/-- Source: `Log_event_type get_type_code() { return ROTATE_EVENT; }` (line 1601). -/
def Rotate_event.get_type_code (_self : Rotate_event) : Log_event_type := .ROTATE_EVENT

/-- Data members of `class Start_event_v3` (lines 1666-1711). -/
structure Start_event_v3 extends Binary_log_event where
  created : Int
  binlog_version : Nat
  server_version : List Nat
  dont_set_created : Bool

/-- Source: `Log_event_type get_type_code() { return START_EVENT_V3;}` (line 1699). -/
def Start_event_v3.get_type_code (_self : Start_event_v3) : Log_event_type := .START_EVENT_V3

/-- Data members of `class Format_description_event`, which derives from
`Start_event_v3` (lines 1771-1810). -/
structure Format_description_event extends Start_event_v3 where
  created_ts : Nat
  common_header_len : Nat
  post_header_len : List Nat
  server_version_split : List Nat
  event_type_permutation : List Nat
  number_of_event_types : Nat

/-- Source: `Log_event_type get_type_code() { return FORMAT_DESCRIPTION_EVENT; }`
(line 1801); it overrides the virtual function inherited from `Start_event_v3`. -/
def Format_description_event.get_type_code (_self : Format_description_event) :
    Log_event_type := .FORMAT_DESCRIPTION_EVENT

/-- The class `Stop_event` (lines 1825-1843) adds no data member. -/
structure Stop_event extends Binary_log_event

/-- Source: `Log_event_type get_type_code() { return STOP_EVENT; }` (line 1838). -/
def Stop_event.get_type_code (_self : Stop_event) : Log_event_type := .STOP_EVENT

/-- Enumerators of `enum Value_type` of `User_var_event` (lines 1917-1924). -/
inductive Value_type where
  | STRING_TYPE
  | REAL_TYPE
  | INT_TYPE
  | ROW_TYPE
  | DECIMAL_TYPE
  | VALUE_TYPE_COUNT
deriving DecidableEq

/-- Data members of `class User_var_event` (lines 1914-1979); `name` and `val`
are pointers. -/
structure User_var_event extends Binary_log_event where
  name : Nat
  name_len : Nat
  val : Nat
  val_len : Nat
  type : Value_type
  charset_number : Nat
  is_null : Bool
  flags : Nat

/-- Source: `Log_event_type get_type_code() {return USER_VAR_EVENT; }` (line 1961). -/
def User_var_event.get_type_code (_self : User_var_event) : Log_event_type := .USER_VAR_EVENT

/-- The class `Ignorable_event` (lines 2002-2014) adds no data member. -/
structure Ignorable_event extends Binary_log_event

/-- Source: `virtual Log_event_type get_type_code() { return IGNORABLE_LOG_EVENT; }`
(line 2010). -/
def Ignorable_event.get_type_code (_self : Ignorable_event) : Log_event_type :=
  .IGNORABLE_LOG_EVENT

/-- Data member of `class Rows_query_event: public virtual Ignorable_event`
(lines 2046-2057); `m_rows_query` is a pointer. -/
structure Rows_query_event extends Ignorable_event where
  m_rows_query : Nat

/-- The function `get_type_code` of a `Rows_query_event`.  The class body
(lines 2046-2057) declares two constructors, a destructor and `m_rows_query`
and no `get_type_code`, so the call resolves to the virtual function it
inherits from its base class `Ignorable_event`. -/
def Rows_query_event.get_type_code (self : Rows_query_event) : Log_event_type :=
  self.toIgnorable_event.get_type_code

/-- Data members of `class Intvar_event` (lines 2097-2169). -/
structure Intvar_event extends Binary_log_event where
  type : Nat
  val : Nat

/-- Source: `Log_event_type get_type_code() { return INTVAR_EVENT; }` (line 2157). -/
def Intvar_event.get_type_code (_self : Intvar_event) : Log_event_type := .INTVAR_EVENT

/-- Enumerators of `enum Incident` of `Incident_event` (lines 2214-2221). -/
inductive Incident where
  | INCIDENT_NONE
  | INCIDENT_LOST_EVENTS
  | INCIDENT_COUNT
deriving DecidableEq

/-- Data members of `class Incident_event` (lines 2208-2238); `message` is a
pointer. -/
structure Incident_event extends Binary_log_event where
  incident : Incident
  message : Nat
  message_length : Nat

/-- Source: `Log_event_type get_type_code() { return INCIDENT_EVENT; }` (line 2231). -/
def Incident_event.get_type_code (_self : Incident_event) : Log_event_type := .INCIDENT_EVENT

/-- Data member of `class Xid_event` (lines 2269-2281). -/
structure Xid_event extends Binary_log_event where
  xid : Nat

/-- Source: `Log_event_type get_type_code() { return XID_EVENT; }` (line 2277). -/
def Xid_event.get_type_code (_self : Xid_event) : Log_event_type := .XID_EVENT

/-- Data members of `class Rand_event` (lines 2322-2342). -/
structure Rand_event extends Binary_log_event where
  seed1 : Nat
  seed2 : Nat

/-- Source: `Log_event_type get_type_code() { return RAND_EVENT ; }` (line 2339). -/
def Rand_event.get_type_code (_self : Rand_event) : Log_event_type := .RAND_EVENT

/-- Data members of `class Previous_gtids_event` (lines 2514-2526); `buf` is a
pointer. -/
structure Previous_gtids_event extends Binary_log_event where
  buf_size : Int
  buf : Nat

/-- Source: `Log_event_type get_type_code() { return PREVIOUS_GTIDS_LOG_EVENT ; }`
(line 2520). -/
def Previous_gtids_event.get_type_code (_self : Previous_gtids_event) : Log_event_type :=
  .PREVIOUS_GTIDS_LOG_EVENT

/-- The class `Unknown_event` (lines 2587-2602) adds no data member. -/
structure Unknown_event extends Binary_log_event

/-- Source: `Log_event_type get_type_code() { return UNKNOWN_EVENT;}` (line 2599). -/
def Unknown_event.get_type_code (_self : Unknown_event) : Log_event_type := .UNKNOWN_EVENT

/-- The default constructor `Log_event_header()` (lines 706-711): `log_pos(0)`,
`flags(0)`, `when.tv_sec= 0`, `when.tv_usec= 0`; the members it leaves
uninitialised are given as arguments. -/
def Log_event_header.init (type_code unmasked_server_id data_written : Nat) :
    Log_event_header :=
  { when_tv_sec := 0, when_tv_usec := 0, type_code := type_code,
    unmasked_server_id := unmasked_server_id, data_written := data_written,
    log_pos := 0, flags := 0 }

/-- The default constructor `Log_event_footer()` (lines 560-563):
`checksum_alg(BINLOG_CHECKSUM_ALG_UNDEF)`. -/
def Log_event_footer.init : Log_event_footer :=
  { checksum_alg := .BINLOG_CHECKSUM_ALG_UNDEF }

/-- The default constructor `Binary_log_event()` (lines 834-836), which default
constructs the header and the footer. -/
def Binary_log_event.init (type_code unmasked_server_id data_written : Nat) :
    Binary_log_event :=
  { m_header := Log_event_header.init type_code unmasked_server_id data_written,
    m_footer := Log_event_footer.init }

/-- The default constructor `Rows_query_event()` (lines 2051-2053): an empty
body, so `m_rows_query` keeps the value given as argument. -/
def Rows_query_event.init (type_code unmasked_server_id data_written m_rows_query : Nat) :
    Rows_query_event :=
  { toBinary_log_event := Binary_log_event.init type_code unmasked_server_id data_written,
    m_rows_query := m_rows_query }

/-! ## Constants of the query, start and checksum layouts -/

/-- Source: `#define SYSTEM_CHARSET_MBMAXLEN 3` -/
def SYSTEM_CHARSET_MBMAXLEN : Int := 3
/-- Source: `#define NAME_CHAR_LEN   64` -/
def NAME_CHAR_LEN : Int := 64
/-- Source: `#define NAME_LEN (NAME_CHAR_LEN*SYSTEM_CHARSET_MBMAXLEN)` -/
def NAME_LEN : Int := NAME_CHAR_LEN * SYSTEM_CHARSET_MBMAXLEN
/-- Source: `#define MAX_DBS_IN_EVENT_MTS 16` -/
def MAX_DBS_IN_EVENT_MTS : Int := 16
/-- Source: `#define OVER_MAX_DBS_IN_EVENT_MTS 254` -/
def OVER_MAX_DBS_IN_EVENT_MTS : Int := 254
/-- Source: `#define COMMIT_SEQ_LEN  8` -/
def COMMIT_SEQ_LEN : Int := 8

/-- Source: `#define MAX_SIZE_LOG_EVENT_STATUS` (lines 219-232), summand by
summand in the order of the source; the operands are non-negative and far below
`2 ^ 32`, so the unsigned arithmetic does not wrap.  The source line of the
microseconds is `3U + /* type, microseconds */ + \`, so the last group enters
with a unary plus. -/
def MAX_SIZE_LOG_EVENT_STATUS : Int :=
  1 + 4                 -- type, flags2
  + 1 + 8               -- type, sql_mode
  + 1 + 1 + 255         -- type, length, catalog
  + 1 + 4               -- type, auto_increment
  + 1 + 6               -- type, charset
  + 1 + 1 + 255         -- type, length, time_zone
  + 1 + 2               -- type, lc_time_names_number
  + 1 + 2               -- type, charset_database_number
  + 1 + 8               -- type, table_map_for_update
  + 1 + 4               -- type, master_data_written
  + 1 + (MAX_DBS_IN_EVENT_MTS * (1 + NAME_LEN))  -- type, db_1, db_2, ...
  + 3                   -- type, microseconds
  + (1 + 16 + 1 + 60)   -- type, user_len, user, host_len, host

/-- Source: `#define ST_SERVER_VER_LEN 50` -/
def ST_SERVER_VER_LEN : Int := 50
/-- Source: `#define ST_BINLOG_VER_OFFSET  0` -/
def ST_BINLOG_VER_OFFSET : Int := 0
/-- Source: `#define ST_SERVER_VER_OFFSET  2` -/
def ST_SERVER_VER_OFFSET : Int := 2
/-- Source: `#define ST_CREATED_OFFSET     (ST_SERVER_VER_OFFSET + ST_SERVER_VER_LEN)` -/
def ST_CREATED_OFFSET : Int := ST_SERVER_VER_OFFSET + ST_SERVER_VER_LEN
/-- Source: `#define ST_COMMON_HEADER_LEN_OFFSET (ST_CREATED_OFFSET + 4)` -/
def ST_COMMON_HEADER_LEN_OFFSET : Int := ST_CREATED_OFFSET + 4

/-- The integer value of each enumerator of `enum_binlog_checksum_alg`
(lines 436-452): `BINLOG_CHECKSUM_ALG_ENUM_END` has no initialiser and takes the
value of the preceding enumerator plus one. -/
def enum_binlog_checksum_alg.val : enum_binlog_checksum_alg → Nat
  | .BINLOG_CHECKSUM_ALG_OFF => 0
  | .BINLOG_CHECKSUM_ALG_CRC32 => 1
  | .BINLOG_CHECKSUM_ALG_ENUM_END => 1 + 1
  | .BINLOG_CHECKSUM_ALG_UNDEF => 255

/-- Source: `#define CHECKSUM_CRC32_SIGNATURE_LEN 4` -/
def CHECKSUM_CRC32_SIGNATURE_LEN : Nat := 4
/-- Source: `#define BINLOG_CHECKSUM_LEN CHECKSUM_CRC32_SIGNATURE_LEN` -/
def BINLOG_CHECKSUM_LEN : Nat := CHECKSUM_CRC32_SIGNATURE_LEN
/-- Source: `#define BINLOG_CHECKSUM_ALG_DESC_LEN 1` -/
def BINLOG_CHECKSUM_ALG_DESC_LEN : Nat := 1

/-! ### `Binary_log_event::enum_post_header_length` (lines 802-832) -/

/-- Source: `QUERY_HEADER_MINIMAL_LEN= (4 + 4 + 1 + 2)` -/
def QUERY_HEADER_MINIMAL_LEN : Int := 4 + 4 + 1 + 2
/-- Source: `QUERY_HEADER_LEN=(QUERY_HEADER_MINIMAL_LEN + 2)` -/
def QUERY_HEADER_LEN : Int := QUERY_HEADER_MINIMAL_LEN + 2
/-- Source: `STOP_HEADER_LEN= 0` -/
def STOP_HEADER_LEN : Int := 0
/-- Source: `LOAD_HEADER_LEN= (4 + 4 + 4 + 1 +1 + 4)` -/
def LOAD_HEADER_LEN : Int := 4 + 4 + 4 + 1 + 1 + 4
/-- Source: `START_V3_HEADER_LEN= (2 + ST_SERVER_VER_LEN + 4)` -/
def START_V3_HEADER_LEN : Int := 2 + ST_SERVER_VER_LEN + 4
/-- Source: `ROTATE_HEADER_LEN= 8` -/
def ROTATE_HEADER_LEN : Int := 8
/-- Source: `INTVAR_HEADER_LEN= 0` -/
def INTVAR_HEADER_LEN : Int := 0
/-- Source: `CREATE_FILE_HEADER_LEN= 4` -/
def CREATE_FILE_HEADER_LEN : Int := 4
/-- Source: `APPEND_BLOCK_HEADER_LEN= 4` -/
def APPEND_BLOCK_HEADER_LEN : Int := 4
/-- Source: `EXEC_LOAD_HEADER_LEN= 4` -/
def EXEC_LOAD_HEADER_LEN : Int := 4
/-- Source: `DELETE_FILE_HEADER_LEN= 4` -/
def DELETE_FILE_HEADER_LEN : Int := 4
/-- Source: `NEW_LOAD_HEADER_LEN= LOAD_HEADER_LEN` -/
def NEW_LOAD_HEADER_LEN : Int := LOAD_HEADER_LEN
/-- Source: `RAND_HEADER_LEN= 0` -/
def RAND_HEADER_LEN : Int := 0
/-- Source: `USER_VAR_HEADER_LEN= 0` -/
def USER_VAR_HEADER_LEN : Int := 0
/-- Source: `FORMAT_DESCRIPTION_HEADER_LEN= (START_V3_HEADER_LEN + 1 + LOG_EVENT_TYPES)` -/
def FORMAT_DESCRIPTION_HEADER_LEN : Int := START_V3_HEADER_LEN + 1 + LOG_EVENT_TYPES
/-- Source: `XID_HEADER_LEN= 0` -/
def XID_HEADER_LEN : Int := 0
/-- Source: `BEGIN_LOAD_QUERY_HEADER_LEN= APPEND_BLOCK_HEADER_LEN` -/
def BEGIN_LOAD_QUERY_HEADER_LEN : Int := APPEND_BLOCK_HEADER_LEN
/-- Source: `ROWS_HEADER_LEN_V1= 8` -/
def ROWS_HEADER_LEN_V1 : Int := 8
/-- Source: `TABLE_MAP_HEADER_LEN= 8` -/
def TABLE_MAP_HEADER_LEN : Int := 8
/-- Source: `EXECUTE_LOAD_QUERY_EXTRA_HEADER_LEN= (4 + 4 + 4 + 1)` -/
def EXECUTE_LOAD_QUERY_EXTRA_HEADER_LEN : Int := 4 + 4 + 4 + 1
/-- Source: `EXECUTE_LOAD_QUERY_HEADER_LEN= (QUERY_HEADER_LEN +
EXECUTE_LOAD_QUERY_EXTRA_HEADER_LEN)` -/
def EXECUTE_LOAD_QUERY_HEADER_LEN : Int :=
  QUERY_HEADER_LEN + EXECUTE_LOAD_QUERY_EXTRA_HEADER_LEN
/-- Source: `INCIDENT_HEADER_LEN= 2` -/
def INCIDENT_HEADER_LEN : Int := 2
/-- Source: `HEARTBEAT_HEADER_LEN= 0` -/
def HEARTBEAT_HEADER_LEN : Int := 0
/-- Source: `IGNORABLE_HEADER_LEN= 0` -/
def IGNORABLE_HEADER_LEN : Int := 0
/-- Source: `ROWS_HEADER_LEN_V2= 10` -/
def ROWS_HEADER_LEN_V2 : Int := 10

/-! ### `Query_event::Query_event_post_header_offset` (lines 1271-1278) -/

/-- Source: `Q_THREAD_ID_OFFSET= 0` -/
def Q_THREAD_ID_OFFSET : Int := 0
/-- Source: `Q_EXEC_TIME_OFFSET= 4` -/
def Q_EXEC_TIME_OFFSET : Int := 4
/-- Source: `Q_DB_LEN_OFFSET= 8` -/
def Q_DB_LEN_OFFSET : Int := 8
/-- Source: `Q_ERR_CODE_OFFSET= 9` -/
def Q_ERR_CODE_OFFSET : Int := 9
/-- Source: `Q_STATUS_VARS_LEN_OFFSET= 11` -/
def Q_STATUS_VARS_LEN_OFFSET : Int := 11
/-- Source: `Q_DATA_OFFSET= QUERY_HEADER_LEN` -/
def Q_DATA_OFFSET : Int := QUERY_HEADER_LEN

/-- Source: `R_POS_OFFSET= 0` (`Rotate_event`, line 1593) -/
def R_POS_OFFSET : Int := 0
/-- Source: `R_IDENT_OFFSET= 8` (`Rotate_event`, line 1594) -/
def R_IDENT_OFFSET : Int := 8

/-- The fields of the v4 post-header of a `Query_event` as
`(name, offset, size in bytes)`: the offsets are the enumerators of
`Query_event_post_header_offset`, the sizes those of the table "Post-Header for
Query_event" (lines 895-943). -/
def Query_post_header_fields : List (String × Nat × Nat) :=
  [("thread_id", Q_THREAD_ID_OFFSET.toNat, 4),
   ("query_exec_time", Q_EXEC_TIME_OFFSET.toNat, 4),
   ("db_len", Q_DB_LEN_OFFSET.toNat, 1),
   ("error_code", Q_ERR_CODE_OFFSET.toNat, 2),
   ("status_vars_len", Q_STATUS_VARS_LEN_OFFSET.toNat, 2)]

/-- The fixed fields of the post-header of a start event as
`(name, offset, size in bytes)`: the offsets are the `ST_*_OFFSET` constants of
lines 415-418, the sizes those of the tables "Post-Header for Start_event_v3" and
"Post-Header for Format_description_event"; the last field belongs to the
`Format_description_event` only. -/
def Start_post_header_fields : List (String × Nat × Nat) :=
  [("binlog_version", ST_BINLOG_VER_OFFSET.toNat, 2),
   ("server_version", ST_SERVER_VER_OFFSET.toNat, ST_SERVER_VER_LEN.toNat),
   ("created", ST_CREATED_OFFSET.toNat, 4),
   ("common_header_len", ST_COMMON_HEADER_LEN_OFFSET.toNat, 1)]

/-! ## Status variables of a query event -/

/-- Enumerators of `enum Query_event_status_vars` (lines 1281-1321), in
declaration order. -/
inductive Query_event_status_vars where
  | Q_FLAGS2_CODE
  | Q_SQL_MODE_CODE
  | Q_CATALOG_CODE
  | Q_AUTO_INCREMENT
  | Q_CHARSET_CODE
  | Q_TIME_ZONE_CODE
  | Q_CATALOG_NZ_CODE
  | Q_LC_TIME_NAMES_CODE
  | Q_CHARSET_DATABASE_CODE
  | Q_TABLE_MAP_FOR_UPDATE_CODE
  | Q_MASTER_DATA_WRITTEN_CODE
  | Q_INVOKER
  | Q_UPDATED_DB_NAMES
  | Q_MICROSECONDS
  | Q_COMMIT_TS
deriving DecidableEq

/-- The integer value of each enumerator of `Query_event_status_vars`: only
`Q_FLAGS2_CODE= 0` has an initialiser, every other enumerator takes the value of
the preceding one plus one. -/
def Query_event_status_vars.val : Query_event_status_vars → Nat
  | .Q_FLAGS2_CODE => 0
  | .Q_SQL_MODE_CODE => 0 + 1
  | .Q_CATALOG_CODE => 1 + 1
  | .Q_AUTO_INCREMENT => 2 + 1
  | .Q_CHARSET_CODE => 3 + 1
  | .Q_TIME_ZONE_CODE => 4 + 1
  | .Q_CATALOG_NZ_CODE => 5 + 1
  | .Q_LC_TIME_NAMES_CODE => 6 + 1
  | .Q_CHARSET_DATABASE_CODE => 7 + 1
  | .Q_TABLE_MAP_FOR_UPDATE_CODE => 8 + 1
  | .Q_MASTER_DATA_WRITTEN_CODE => 9 + 1
  | .Q_INVOKER => 10 + 1
  | .Q_UPDATED_DB_NAMES => 11 + 1
  | .Q_MICROSECONDS => 12 + 1
  | .Q_COMMIT_TS => 13 + 1

/-- The enumerators of `Query_event_status_vars` in declaration order. -/
def Query_event_status_vars.enumerators : List Query_event_status_vars :=
  [.Q_FLAGS2_CODE, .Q_SQL_MODE_CODE, .Q_CATALOG_CODE, .Q_AUTO_INCREMENT, .Q_CHARSET_CODE,
   .Q_TIME_ZONE_CODE, .Q_CATALOG_NZ_CODE, .Q_LC_TIME_NAMES_CODE, .Q_CHARSET_DATABASE_CODE,
   .Q_TABLE_MAP_FOR_UPDATE_CODE, .Q_MASTER_DATA_WRITTEN_CODE, .Q_INVOKER,
   .Q_UPDATED_DB_NAMES, .Q_MICROSECONDS, .Q_COMMIT_TS]

/-- Modelled from the spec: the code that writes the status variables is not part
of the sources at hand.  The maximal payload in bytes of each status variable
after its code byte, per the table of the status-variable decoder: a one-byte
length prefixes at most 255 bytes, the invoker is a user of at most 16 and a host
of at most 60 bytes, each behind its length byte, and the updated database names
are a count byte and at most 16 zero-terminated names of at most `64 * 3 + 1`
bytes each. -/
def status_var_max_payload : Query_event_status_vars → Int
  | .Q_FLAGS2_CODE => 4
  | .Q_SQL_MODE_CODE => 8
  | .Q_CATALOG_CODE => 1 + 255 + 1
  | .Q_AUTO_INCREMENT => 2 + 2
  | .Q_CHARSET_CODE => 2 + 2 + 2
  | .Q_TIME_ZONE_CODE => 1 + 255
  | .Q_CATALOG_NZ_CODE => 1 + 255
  | .Q_LC_TIME_NAMES_CODE => 2
  | .Q_CHARSET_DATABASE_CODE => 2
  | .Q_TABLE_MAP_FOR_UPDATE_CODE => 8
  | .Q_MASTER_DATA_WRITTEN_CODE => 4
  | .Q_INVOKER => 1 + 16 + 1 + 60
  | .Q_UPDATED_DB_NAMES => 1 + 16 * (64 * 3 + 1)
  | .Q_MICROSECONDS => 3
  | .Q_COMMIT_TS => 8

/-- Modelled from the spec: the size of the largest status-variable block of a
current master, which writes every status variable except the legacy
`Q_CATALOG_CODE`: one code byte and the maximal payload for each. -/
def max_status_vars_block : Int :=
  ((Query_event_status_vars.enumerators.filter (fun v => v ≠ .Q_CATALOG_CODE)).map
    (fun v => 1 + status_var_max_payload v)).sum

/-! ## Gtid events -/

/-- Enumerators of `enum enum_group_type` (lines 174-181). -/
inductive enum_group_type where
  | AUTOMATIC_GROUP
  | GTID_GROUP
  | ANONYMOUS_GROUP
  | INVALID_GROUP
  | UNDEFINED_GROUP
deriving DecidableEq

/-- The integer value of each enumerator of `enum_group_type`:
`AUTOMATIC_GROUP= 0`, every other enumerator the preceding one plus one. -/
def enum_group_type.val : enum_group_type → Nat
  | .AUTOMATIC_GROUP => 0
  | .GTID_GROUP => 0 + 1
  | .ANONYMOUS_GROUP => 1 + 1
  | .INVALID_GROUP => 2 + 1
  | .UNDEFINED_GROUP => 3 + 1

/-- Data members of `struct gtid_info` (lines 2392-2400); `type` holds the value
of a `uint8_t`. -/
structure gtid_info where
  type : Nat
  uuid_buf : List Nat
  rpl_gtid_sidno : Int
  rpl_gtid_gno : Int
deriving DecidableEq

/-- Data members of `class Gtid_event` (lines 2459-2481). -/
structure Gtid_event extends Binary_log_event where
  commit_seq_no : Int
  gtid_info_struct : gtid_info
  commit_flag : Bool

/-- Source (lines 2466-2471):
`Log_event_type ret= (gtid_info_struct.type == 2 ?
ANONYMOUS_GTID_LOG_EVENT : GTID_LOG_EVENT); return ret;`. -/
def Gtid_event.get_type_code (self : Gtid_event) : Log_event_type :=
  if self.gtid_info_struct.type = 2 then .ANONYMOUS_GTID_LOG_EVENT else .GTID_LOG_EVENT

/-- Source (lines 854-857):
`return (enum Log_event_type) m_header.type_code;`, as the integer value of the
enumeration. -/
def Binary_log_event.get_event_type (self : Binary_log_event) : Nat :=
  self.m_header.type_code

/-- The constructor `Gtid_event(bool commit_flag_arg): commit_flag(commit_flag_arg)`
(line 2465) on top of `Binary_log_event()`; the members it leaves uninitialised
are given as arguments. -/
def Gtid_event.init (commit_flag_arg : Bool) (type_code : Nat) (commit_seq_no : Int)
    (gtid_info_struct : gtid_info) : Gtid_event :=
  { toBinary_log_event := Binary_log_event.init type_code 1 0,
    commit_seq_no := commit_seq_no, gtid_info_struct := gtid_info_struct,
    commit_flag := commit_flag_arg }

/-! ## Server version of a format description event -/

/-- Reads the decimal digits (bytes `'0'`..`'9'`) at the start of a byte string:
the number they spell, continuing from `acc`, and the bytes left from the first
non-digit on. -/
def take_number : List Nat → Nat → Nat × List Nat
  | [], acc => (acc, [])
  | c :: cs, acc =>
    if 48 ≤ c ∧ c ≤ 57 then take_number cs (acc * 10 + (c - 48)) else (acc, c :: cs)

/-- Skips one dot (byte `'.'`) at the start of a byte string. -/
def skip_dot : List Nat → List Nat
  | c :: cs => if c = 46 then cs else c :: cs
  | [] => []

/-- Modelled from the spec: `do_server_version_split` behind
`Format_description_event::calc_server_version_split`, which is declared in the
header (line 1804) and defined outside the sources at hand.  The version string
is scanned for the dot-separated integer components `MAJOR.MINOR.PATCH`; a
non-digit stops the parsing of a component. -/
def server_version_split_of (server_version : List Nat) : List Nat :=
  let r1 := take_number server_version 0
  let r2 := take_number (skip_dot r1.2) 0
  let r3 := take_number (skip_dot r2.2) 0
  [r1.1, r2.1, r3.1]

/-- Modelled from the spec: `Format_description_event::calc_server_version_split`
stores the split of `server_version` in `server_version_split`. -/
def Format_description_event.calc_server_version_split (self : Format_description_event) :
    Format_description_event :=
  { self with server_version_split := server_version_split_of self.server_version }

/-- Lexicographic "less than" on lists of numbers. -/
def lex_lt : List Nat → List Nat → Bool
  | [], [] => false
  | [], _ :: _ => true
  | _ :: _, [] => false
  | x :: xs, y :: ys => decide (x < y) || (decide (x = y) && lex_lt xs ys)

/-- Modelled from the spec: `Format_description_event::is_version_before_checksum`,
declared in the header (line 1803) and defined outside the sources at hand: true
iff the numeric triple `server_version_split` is lexicographically less than
`(5, 6, 1)`. -/
def Format_description_event.is_version_before_checksum (self : Format_description_event) :
    Bool :=
  lex_lt self.server_version_split [5, 6, 1]

/-- The bytes of a string of ASCII characters, as stored in a `char` array. -/
def bytes_of (s : String) : List Nat := s.data.map Char.toNat

/-- A `Format_description_event` of binlog version 4 with the given
`server_version` and `server_version_split`, a 19-byte common header and an empty
post-header length table. -/
def Format_description_event.of_version (server_version server_version_split : List Nat) :
    Format_description_event :=
  { toBinary_log_event :=
      Binary_log_event.init Log_event_type.FORMAT_DESCRIPTION_EVENT.val 1 0,
    created := 0, binlog_version := 4, server_version := server_version,
    dont_set_created := false, created_ts := 0, common_header_len := 19,
    post_header_len := [], server_version_split := server_version_split,
    event_type_permutation := [], number_of_event_types := 0 }

/-! ## Checksum -/

/-- Modelled from the spec: one bit step of the zlib CRC-32 (`crc32` of `zlib.h`,
an external library), the reflected polynomial `0xEDB88320`: shift right by one
and add the polynomial when the bit shifted out is set. -/
def crc32_bit (c : Nat) : Nat :=
  (c >>> 1) ^^^ (if c % 2 = 1 then 0xEDB88320 else 0)

/-- Modelled from the spec: `n` bit steps of the zlib CRC-32. -/
def crc32_bits : Nat → Nat → Nat
  | 0, c => c
  | n + 1, c => crc32_bits n (crc32_bit c)

/-- Modelled from the spec: the zlib CRC-32 step for one byte: the byte is added
to the low bits of the register, followed by eight bit steps. -/
def crc32_byte (c b : Nat) : Nat := crc32_bits 8 (c ^^^ (b % 256))

/-- Modelled from the spec: `crc32(crc, buf, len)` of zlib over the bytes of the
block: the register starts as the complement of `crc`, takes the bytes in order,
and is complemented at the end. -/
def crc32 (crc : Nat) (block : List Nat) : Nat :=
  (block.foldl crc32_byte ((crc % 2 ^ 32) ^^^ 0xFFFFFFFF)) ^^^ 0xFFFFFFFF

/-- Source (lines 477-480): `return (uint32_t)crc32(crc, pos, length);` where
`pos` is given as the bytes stored from the pointer on. -/
def checksum_crc32 (crc : Nat) (pos : List Nat) (length : Nat) : Nat :=
  crc32 crc (pos.take length) % 2 ^ 32

/-- Modelled from the spec: the four bytes of a 32-bit integer, low byte first
(`int4store` of `byteorder.h`). -/
def int4store (v : Nat) : List Nat :=
  [v % 256, v / 2 ^ 8 % 256, v / 2 ^ 16 % 256, v / 2 ^ 24 % 256]

/-- Modelled from the spec: `Log_event_footer::event_checksum_test`, declared in
the header (lines 555-557) and defined outside the sources at hand; the result
is `true` when the event fails the test.  For `CRC32` the zlib CRC-32 of
`span[0..len-4]` is compared to the little-endian 32-bit integer at
`span[len-4..len]`; for any other algorithm the verification is a no-op. -/
def event_checksum_test (buf : List Nat) (event_len : Nat) (alg : enum_binlog_checksum_alg) :
    Bool :=
  match alg with
  | .BINLOG_CHECKSUM_ALG_CRC32 =>
    checksum_crc32 0 buf (event_len - BINLOG_CHECKSUM_LEN)
      != uint4korr buf (event_len - BINLOG_CHECKSUM_LEN)
  | _ => false

/-! ## Accessors of a query event -/

/-- Source (lines 1463-1466): `void set_user(const std::string &s) { m_user= s; }`. -/
def Query_event.set_user (self : Query_event) (s : List Nat) : Query_event :=
  { self with m_user := s }

/-- Source (lines 1467-1470): `std::string get_user() const { return m_user; }`. -/
def Query_event.get_user (self : Query_event) : List Nat := self.m_user

/-- Source (lines 1471-1474): `void set_host(const std::string &s) { m_host= s; }`. -/
def Query_event.set_host (self : Query_event) (s : List Nat) : Query_event :=
  { self with m_host := s }

/-- Source (lines 1475-1478): `std::string get_host() const { return m_host; }`. -/
def Query_event.get_host (self : Query_event) : List Nat := self.m_host

/-- Source (lines 1479-1483): `m_time_zone_str= s;
time_zone_len= m_time_zone_str.length();`; the length, a `size_t`, is converted
to the `unsigned int` member. -/
def Query_event.set_time_zone_str (self : Query_event) (s : List Nat) : Query_event :=
  let q := { self with m_time_zone_str := s }
  { q with time_zone_len := q.m_time_zone_str.length % 2 ^ 32 }

/-- Source (lines 1484-1487):
`std::string get_time_zone_str() const { return m_time_zone_str; }`. -/
def Query_event.get_time_zone_str (self : Query_event) : List Nat := self.m_time_zone_str

/-- Source (lines 1488-1492): `m_catalog= s; catalog_len= m_catalog.length();`;
the length, a `size_t`, is converted to the `unsigned int` member. -/
def Query_event.set_catalog (self : Query_event) (s : List Nat) : Query_event :=
  let q := { self with m_catalog := s }
  { q with catalog_len := q.m_catalog.length % 2 ^ 32 }

/-- Source (lines 1493-1496): `std::string get_catalog() const { return m_catalog; }`. -/
def Query_event.get_catalog (self : Query_event) : List Nat := self.m_catalog

/-- Source (lines 1497-1501): `m_db= s; db_len= m_db.length();`; the length, a
`size_t`, is converted to the `uint32_t` member. -/
def Query_event.set_db (self : Query_event) (s : List Nat) : Query_event :=
  let q := { self with m_db := s }
  { q with db_len := q.m_db.length % 2 ^ 32 }

/-- Source (lines 1502-1505): `std::string get_db() const { return m_db; }`. -/
def Query_event.get_db (self : Query_event) : List Nat := self.m_db

/-- Source (lines 1506-1510): `m_query= s; q_len= m_query.length();`; the length,
a `size_t`, is converted to the `uint32_t` member. -/
def Query_event.set_query (self : Query_event) (s : List Nat) : Query_event :=
  let q := { self with m_query := s }
  { q with q_len := q.m_query.length % 2 ^ 32 }

/-- Source (lines 1511-1514): `std::string get_query() const { return m_query; }`. -/
def Query_event.get_query (self : Query_event) : List Nat := self.m_query

/-- Source (line 1457): `bool is_valid() const {  return !m_query.empty(); }`. -/
def Query_event.is_valid (self : Query_event) : Bool := !self.m_query.isEmpty

/-- A call of one of the six string setters of `Query_event` with its argument. -/
inductive Query_setter where
  | set_user (s : List Nat)
  | set_host (s : List Nat)
  | set_time_zone_str (s : List Nat)
  | set_catalog (s : List Nat)
  | set_db (s : List Nat)
  | set_query (s : List Nat)
deriving DecidableEq

/-- The string a setter call passes. -/
def Query_setter.arg : Query_setter → List Nat
  | .set_user s => s
  | .set_host s => s
  | .set_time_zone_str s => s
  | .set_catalog s => s
  | .set_db s => s
  | .set_query s => s

/-- Executes a setter call on a query event. -/
def Query_setter.call (c : Query_setter) (q : Query_event) : Query_event :=
  match c with
  | .set_user s => q.set_user s
  | .set_host s => q.set_host s
  | .set_time_zone_str s => q.set_time_zone_str s
  | .set_catalog s => q.set_catalog s
  | .set_db s => q.set_db s
  | .set_query s => q.set_query s

/-- Executes a sequence of setter calls, first call first. -/
def Query_event.call_all (q : Query_event) (calls : List Query_setter) : Query_event :=
  calls.foldl (fun e c => c.call e) q

/-- Whether a call is a call of `set_time_zone_str`. -/
def Query_setter.sets_time_zone : Query_setter → Bool
  | .set_time_zone_str _ => true
  | _ => false

/-- Whether a call is a call of `set_catalog`. -/
def Query_setter.sets_catalog : Query_setter → Bool
  | .set_catalog _ => true
  | _ => false

/-- Whether a call is a call of `set_db`. -/
def Query_setter.sets_db : Query_setter → Bool
  | .set_db _ => true
  | _ => false

/-- Whether a call is a call of `set_query`. -/
def Query_setter.sets_query : Query_setter → Bool
  | .set_query _ => true
  | _ => false

/-- The default constructor `Query_event()` is declared in the header (line 1451)
and defined outside the sources at hand; this is a query event with a
default-constructed base, empty strings and every other member zero. -/
def Query_event.empty : Query_event :=
  { toBinary_log_event := Binary_log_event.init Log_event_type.QUERY_EVENT.val 1 0,
    m_user := [], m_host := [], m_catalog := [], m_time_zone_str := [], m_db := [],
    m_query := [], data_len := 0, query_data_written := 0, thread_id := 0,
    query_exec_time := 0, db_len := 0, error_code := 0, status_vars_len := 0, q_len := 0,
    flags2_inited := false, sql_mode_inited := false, charset_inited := false, flags2 := 0,
    sql_mode := 0, auto_increment_increment := 0, auto_increment_offset := 0, charset := [],
    time_zone_len := 0, catalog_len := 0, lc_time_names_number := 0,
    charset_database_number := 0, table_map_for_update := 0, master_data_written := 0,
    mts_accessed_dbs := 0, mts_accessed_db_names := [], commit_seq_no := 0 }

/-! ## User variable events -/

/-- The integer value of each enumerator of `Value_type` (lines 1917-1924): none
has an initialiser, so the first is 0 and every other one the preceding one plus
one. -/
def Value_type.val : Value_type → Nat
  | .STRING_TYPE => 0
  | .REAL_TYPE => 0 + 1
  | .INT_TYPE => 1 + 1
  | .ROW_TYPE => 2 + 1
  | .DECIMAL_TYPE => 3 + 1
  | .VALUE_TYPE_COUNT => 4 + 1

/-- The value-carrying constructor of `User_var_event` (lines 1937-1949), on top
of the default-constructed base `base`.  The members have the types of their
arguments except `val_len`, a `uint32_t` assigned from the `unsigned long`
(64-bit) `val_len_arg`; `is_null= !val` is true for the null pointer. -/
def User_var_event.ctor (base : Binary_log_event) (name_arg name_len_arg val_arg
    val_len_arg : Nat) (type_arg : Value_type) (charset_number_arg flags_arg : Nat) :
    User_var_event :=
  { toBinary_log_event := base,
    name := name_arg,
    name_len := name_len_arg,
    val := val_arg,
    val_len := val_len_arg % 2 ^ 32,
    type := type_arg,
    charset_number := charset_number_arg,
    flags := flags_arg,
    is_null := decide (val_arg = 0) }

/-! ## Further constants and scenario data -/

/-- Source: `#define LOG_EVENT_HEADER_SIZE 20` (line 507) -/
def LOG_EVENT_HEADER_SIZE : Nat := 20

/-- Modelled from the spec: the number of post-header-length bytes scenario S1
lists in the body of its format description event (`<38 post_header_len bytes>`),
followed by the one descriptor byte `01`. -/
def S1_post_header_len_bytes : Nat := 38

/-- Successive calls of `read_str_at_most_255_bytes` on the same cursor: `n`
calls that all succeed give the final argument state, a failing call gives
`none`. -/
def read_str_seq (mem : Nat → Nat) (buf_end : Nat) : Nat → Str_args → Option Str_args
  | 0, a => some a
  | n + 1, a =>
    if (read_str_at_most_255_bytes mem buf_end a).1 = 0 then
      read_str_seq mem buf_end n (read_str_at_most_255_bytes mem buf_end a).2
    else none

/-- The values of `Binary_log_event::enum_post_header_length` (lines 802-832), in
declaration order. -/
def enum_post_header_length_values : List Int :=
  [QUERY_HEADER_MINIMAL_LEN, QUERY_HEADER_LEN, STOP_HEADER_LEN, LOAD_HEADER_LEN,
   START_V3_HEADER_LEN, ROTATE_HEADER_LEN, INTVAR_HEADER_LEN, CREATE_FILE_HEADER_LEN,
   APPEND_BLOCK_HEADER_LEN, EXEC_LOAD_HEADER_LEN, DELETE_FILE_HEADER_LEN,
   NEW_LOAD_HEADER_LEN, RAND_HEADER_LEN, USER_VAR_HEADER_LEN,
   FORMAT_DESCRIPTION_HEADER_LEN, XID_HEADER_LEN, BEGIN_LOAD_QUERY_HEADER_LEN,
   ROWS_HEADER_LEN_V1, TABLE_MAP_HEADER_LEN, EXECUTE_LOAD_QUERY_EXTRA_HEADER_LEN,
   EXECUTE_LOAD_QUERY_HEADER_LEN, INCIDENT_HEADER_LEN, HEARTBEAT_HEADER_LEN,
   IGNORABLE_HEADER_LEN, ROWS_HEADER_LEN_V2]

/-! ## Theorems: buffer helpers -/

theorem bytes_at_length (mem : Nat → Nat) (p n : Nat) : (bytes_at mem p n).length = n := by
  simp [bytes_at]

theorem bytes_at_add (mem : Nat → Nat) (p m n : Nat) :
    bytes_at mem p (m + n) = bytes_at mem p m ++ bytes_at mem (p + m) n := by
  simp [bytes_at, List.range_add, List.map_append, Nat.add_assoc]

theorem bytes_at_one (mem : Nat → Nat) (p : Nat) : bytes_at mem p 1 = [mem p] := by
  simp [bytes_at, List.range_succ]

/-- The failure path of `read_str_at_most_255_bytes`. -/
theorem read_str_fail (mem : Nat → Nat) (buf_end : Nat) (a : Str_args)
    (hc : buf_end ≤ a.buf + mem a.buf % 256) :
    read_str_at_most_255_bytes mem buf_end a
      = (1, { a with loads := a.loads ++ [a.buf] }) := by
  unfold read_str_at_most_255_bytes
  simp only [ge_iff_le]
  rw [if_pos hc]

/-- The success path of `read_str_at_most_255_bytes`. -/
theorem read_str_ok (mem : Nat → Nat) (buf_end : Nat) (a : Str_args)
    (hc : a.buf + mem a.buf % 256 < buf_end) :
    read_str_at_most_255_bytes mem buf_end a
      = (0, { buf := a.buf + (mem a.buf % 256 + 1), str := a.buf + 1,
              len := mem a.buf % 256, loads := a.loads ++ [a.buf] ++ [a.buf] }) := by
  have hw : (mem a.buf % 256 % 2 ^ 32 + 1) % 2 ^ 32 = mem a.buf % 256 + 1 := by omega
  unfold read_str_at_most_255_bytes
  simp only [ge_iff_le]
  rw [if_neg (by omega), hw]

/-- The three segments of a memory region that holds a length byte, a string
and a rest. -/
theorem bytes_at_prefixed (mem : Nat → Nat) (p : Nat) (s r : List Nat)
    (hmem : bytes_at mem p (1 + s.length + r.length) = s.length :: (s ++ r)) :
    mem p = s.length ∧ bytes_at mem (p + 1) s.length = s
      ∧ bytes_at mem (p + 1 + s.length) r.length = r := by
  rw [Nat.add_assoc, bytes_at_add, bytes_at_add, bytes_at_one] at hmem
  simp only [List.singleton_append, List.cons.injEq] at hmem
  obtain ⟨h0, h1⟩ := hmem
  have h2 := List.append_inj h1 (by simp [bytes_at_length])
  exact ⟨h0, h2.1, h2.2⟩

/-- C1: with at least one byte remaining (`p < buf_end`) and `L` the byte at
`p`, `read_str_at_most_255_bytes` returns 0 if and only if
`p + 1 + L ≤ buf_end` and returns 1 otherwise; a string ending exactly at
`buf_end` is accepted and one that is a single byte too long is rejected. -/
theorem read_str_success_iff (mem : Nat → Nat) (buf_end : Nat) (a : Str_args)
    (_h : a.buf < buf_end) :
    ((read_str_at_most_255_bytes mem buf_end a).1 = 0
        ↔ a.buf + 1 + mem a.buf % 256 ≤ buf_end)
      ∧ (¬ (a.buf + 1 + mem a.buf % 256 ≤ buf_end)
          → (read_str_at_most_255_bytes mem buf_end a).1 = 1)
      ∧ (a.buf + 1 + mem a.buf % 256 = buf_end
          → (read_str_at_most_255_bytes mem buf_end a).1 = 0)
      ∧ (a.buf + 1 + mem a.buf % 256 = buf_end + 1
          → (read_str_at_most_255_bytes mem buf_end a).1 = 1) := by
  by_cases hc : buf_end ≤ a.buf + mem a.buf % 256
  · rw [read_str_fail mem buf_end a hc]
    refine ⟨⟨fun h => by simp at h, fun h => by omega⟩, fun _ => rfl,
      fun h => by omega, fun _ => rfl⟩
  · rw [read_str_ok mem buf_end a (by omega)]
    refine ⟨⟨fun _ => by omega, fun _ => rfl⟩, fun h => by omega, fun _ => rfl,
      fun h => by omega⟩

/-- Witness for C1: the buffer `[2, 65, 66]` at address 0 with `buf_end = 3`
holds a string whose last byte is the last byte before `buf_end`; it is
accepted. -/
theorem read_str_success_iff_witness :
    (0 : Nat) < 3 ∧ (read_str_at_most_255_bytes (mem_of 0 [2, 65, 66]) 3 ⟨0, 0, 0, []⟩).1 = 0 :=
  ⟨by decide,
   (read_str_success_iff (mem_of 0 [2, 65, 66]) 3 ⟨0, 0, 0, []⟩ (by decide)).2.2.1
     (by decide)⟩

/-- C2: round trip of the 1-byte-length-prefixed string.  When the memory at
the cursor holds `[|s|] ++ s ++ r` with `|s| ≤ 255` and `buf_end` is the end of
that concatenation, the read succeeds, sets `len = |s|`, sets `str` one byte
after the old cursor where the `|s|` bytes equal `s`, and leaves the cursor at
the first byte of `r`. -/
theorem read_str_round_trip (mem : Nat → Nat) (a : Str_args) (s r : List Nat)
    (hs : s.length ≤ 255)
    (hmem : bytes_at mem a.buf (1 + s.length + r.length) = s.length :: (s ++ r)) :
    (read_str_at_most_255_bytes mem (a.buf + (1 + s.length + r.length)) a).1 = 0
      ∧ (read_str_at_most_255_bytes mem (a.buf + (1 + s.length + r.length)) a).2.len = s.length
      ∧ (read_str_at_most_255_bytes mem (a.buf + (1 + s.length + r.length)) a).2.str = a.buf + 1
      ∧ bytes_at mem (read_str_at_most_255_bytes mem (a.buf + (1 + s.length + r.length)) a).2.str
          (read_str_at_most_255_bytes mem (a.buf + (1 + s.length + r.length)) a).2.len = s
      ∧ (read_str_at_most_255_bytes mem (a.buf + (1 + s.length + r.length)) a).2.buf
          = a.buf + 1 + s.length
      ∧ bytes_at mem (read_str_at_most_255_bytes mem (a.buf + (1 + s.length + r.length)) a).2.buf
          r.length = r := by
  obtain ⟨h0, h1, h2⟩ := bytes_at_prefixed mem a.buf s r hmem
  have hL : mem a.buf % 256 = s.length := by rw [h0]; omega
  have hc : a.buf + mem a.buf % 256 < a.buf + (1 + s.length + r.length) := by
    rw [hL]; omega
  have hb : a.buf + (s.length + 1) = a.buf + 1 + s.length := by omega
  rw [read_str_ok mem _ a hc, hL, hb]
  exact ⟨rfl, rfl, rfl, h1, rfl, h2⟩

/-- Witness for C2: `s = [104, 105]`, `r = [7]`, stored at address 10. -/
theorem read_str_round_trip_witness :
    (read_str_at_most_255_bytes (mem_of 10 [2, 104, 105, 7]) 14 ⟨10, 0, 0, []⟩).1 = 0
      ∧ (read_str_at_most_255_bytes (mem_of 10 [2, 104, 105, 7]) 14 ⟨10, 0, 0, []⟩).2.len = 2
      ∧ (read_str_at_most_255_bytes (mem_of 10 [2, 104, 105, 7]) 14 ⟨10, 0, 0, []⟩).2.buf = 13 :=
  have h := read_str_round_trip (mem_of 10 [2, 104, 105, 7]) ⟨10, 0, 0, []⟩ [104, 105] [7]
    (by decide) (by decide)
  ⟨h.1, h.2.1, h.2.2.2.2.1⟩

/-- C3: with the cursor at `buf_end` the function returns 1 whatever the memory
holds, yet it does dereference the cursor first: the address `buf_end`, which is
not inside the buffer, is loaded.  Shown for an empty buffer at address 100
followed by a foreign byte, and for every memory, end position and output
state. -/
theorem read_str_at_end_loads_buf_end :
    read_str_at_most_255_bytes (mem_of 100 [7]) 100 ⟨100, 0, 0, []⟩
        = (1, ⟨100, 0, 0, [100]⟩)
      ∧ ∀ (mem : Nat → Nat) (buf_end str len : Nat),
          (read_str_at_most_255_bytes mem buf_end ⟨buf_end, str, len, []⟩).1 = 1
            ∧ (read_str_at_most_255_bytes mem buf_end ⟨buf_end, str, len, []⟩).2.loads
                = [buf_end]
            ∧ ¬ (buf_end < buf_end) := by
  refine ⟨by decide, fun mem buf_end str len => ?_⟩
  rw [read_str_fail mem buf_end ⟨buf_end, str, len, []⟩ (Nat.le_add_right _ _)]
  exact ⟨rfl, rfl, Nat.lt_irrefl _⟩

theorem to_uint32_of_lt (n : Nat) (h : n < 2 ^ 32) : to_uint32 (n : Int) = n := by
  unfold to_uint32
  have h1 : ((n : Int) % (2 ^ 32 : Int)) = (n : Int) :=
    Int.emod_eq_of_lt (Int.natCast_nonneg n) (by exact_mod_cast h)
  rw [h1]
  exact Int.toNat_natCast n

/-- C4: with `offset = buf_current - buf_start` and `0 ≤ offset ≤ buf_len`,
for 32-bit unsigned `buf_len` and `jump`: `available_buffer` returns
`buf_len - offset`, and `valid_buffer_range` is true if and only if
`offset + jump ≤ buf_len`. -/
theorem valid_buffer_range_iff (jump buf_start buf_current buf_len : Nat)
    (hstart : buf_start ≤ buf_current) (hoff : buf_current - buf_start ≤ buf_len)
    (hlen : buf_len < 2 ^ 32) (_hjump : jump < 2 ^ 32) :
    available_buffer buf_start buf_current buf_len = buf_len - (buf_current - buf_start)
      ∧ (valid_buffer_range jump buf_start buf_current buf_len = true
          ↔ (buf_current - buf_start) + jump ≤ buf_len) := by
  have hav : available_buffer buf_start buf_current buf_len
      = buf_len - (buf_current - buf_start) := by
    unfold available_buffer
    have hcast : (buf_len : Int) - ((buf_current : Int) - (buf_start : Int))
        = ((buf_len - (buf_current - buf_start) : Nat) : Int) := by omega
    rw [hcast]
    exact to_uint32_of_lt _ (by omega)
  refine ⟨hav, ?_⟩
  unfold valid_buffer_range
  rw [hav, decide_eq_true_eq]
  omega

/-- Witness for C4: a 19-byte buffer at address 1000, cursor at offset 13,
jump 6. -/
theorem valid_buffer_range_iff_witness :
    available_buffer 1000 1013 19 = 6 ∧ valid_buffer_range 6 1000 1013 19 = true :=
  have h := valid_buffer_range_iff 6 1000 1013 19 (by decide) (by decide) (by decide)
    (by decide)
  ⟨h.1, h.2.2 (by decide)⟩

/-- C5: with the cursor one byte past the end of a 19-byte buffer the
subtraction wraps around in the 32-bit unsigned result type:
`available_buffer` is `2 ^ 32 - 1` and `valid_buffer_range` accepts a jump of 4
although `offset + jump = 24 > 19 = buf_len`. -/
theorem valid_buffer_range_past_end :
    available_buffer 1000 1020 19 = 2 ^ 32 - 1
      ∧ valid_buffer_range 4 1000 1020 19 = true
      ∧ ¬ ((1020 - 1000) + 4 ≤ 19) := by
  refine ⟨by decide, by decide, by decide⟩

/-! ## Theorems: event types and layout -/

/-- Every enumerator of `Log_event_type` is the end marker or one of the listed
event types. -/
theorem mem_enumerators (t : Log_event_type) :
    t = .ENUM_END_EVENT ∨ t ∈ Log_event_type.enumerators := by
  cases t <;> simp [Log_event_type.enumerators]

/-- Distinct enumerators of `Log_event_type` have distinct values. -/
theorem val_injective : Function.Injective Log_event_type.val := by
  intro a b h
  cases a <;> cases b <;> first | rfl | (exact absurd h (by decide))

/-- C6: every `Log_event_type` enumerator has the type code the spec lists, the
codes are pairwise distinct, contiguous from 0, and `ENUM_END_EVENT = 37`. -/
theorem log_event_type_values :
    (Log_event_type.UNKNOWN_EVENT.val = 0
      ∧ Log_event_type.START_EVENT_V3.val = 1
      ∧ Log_event_type.QUERY_EVENT.val = 2
      ∧ Log_event_type.STOP_EVENT.val = 3
      ∧ Log_event_type.ROTATE_EVENT.val = 4
      ∧ Log_event_type.INTVAR_EVENT.val = 5
      ∧ Log_event_type.LOAD_EVENT.val = 6
      ∧ Log_event_type.SLAVE_EVENT.val = 7
      ∧ Log_event_type.CREATE_FILE_EVENT.val = 8
      ∧ Log_event_type.APPEND_BLOCK_EVENT.val = 9
      ∧ Log_event_type.EXEC_LOAD_EVENT.val = 10
      ∧ Log_event_type.DELETE_FILE_EVENT.val = 11
      ∧ Log_event_type.NEW_LOAD_EVENT.val = 12
      ∧ Log_event_type.RAND_EVENT.val = 13
      ∧ Log_event_type.USER_VAR_EVENT.val = 14
      ∧ Log_event_type.FORMAT_DESCRIPTION_EVENT.val = 15
      ∧ Log_event_type.XID_EVENT.val = 16
      ∧ Log_event_type.BEGIN_LOAD_QUERY_EVENT.val = 17
      ∧ Log_event_type.EXECUTE_LOAD_QUERY_EVENT.val = 18
      ∧ Log_event_type.TABLE_MAP_EVENT.val = 19
      ∧ Log_event_type.PRE_GA_WRITE_ROWS_EVENT.val = 20
      ∧ Log_event_type.PRE_GA_UPDATE_ROWS_EVENT.val = 21
      ∧ Log_event_type.PRE_GA_DELETE_ROWS_EVENT.val = 22
      ∧ Log_event_type.WRITE_ROWS_EVENT_V1.val = 23
      ∧ Log_event_type.UPDATE_ROWS_EVENT_V1.val = 24
      ∧ Log_event_type.DELETE_ROWS_EVENT_V1.val = 25
      ∧ Log_event_type.INCIDENT_EVENT.val = 26
      ∧ Log_event_type.HEARTBEAT_LOG_EVENT.val = 27
      ∧ Log_event_type.IGNORABLE_LOG_EVENT.val = 28
      ∧ Log_event_type.ROWS_QUERY_LOG_EVENT.val = 29
      ∧ Log_event_type.WRITE_ROWS_EVENT.val = 30
      ∧ Log_event_type.UPDATE_ROWS_EVENT.val = 31
      ∧ Log_event_type.DELETE_ROWS_EVENT.val = 32
      ∧ Log_event_type.GTID_LOG_EVENT.val = 33
      ∧ Log_event_type.ANONYMOUS_GTID_LOG_EVENT.val = 34
      ∧ Log_event_type.PREVIOUS_GTIDS_LOG_EVENT.val = 35
      ∧ Log_event_type.USER_DEFINED_EVENT.val = 36)
      ∧ Function.Injective Log_event_type.val
      ∧ Log_event_type.enumerators.map Log_event_type.val = List.range 37
      ∧ Log_event_type.ENUM_END_EVENT.val = 37 := by
  refine ⟨?_, val_injective, by decide, rfl⟩
  decide

/-- C7: the common-header field offsets tile the 19-byte header without gap or
overlap (`when` 0/4, `type_code` 4/1, `server_id` 5/4, `data_written` 9/4,
`log_pos` 13/4, `flags` 17/2), `FLAGS_OFFSET + 2` is both header-length
constants, and in the S1 header the byte at `EVENT_TYPE_OFFSET` is
`FORMAT_DESCRIPTION_EVENT` and the 32-bit integer at `EVENT_LEN_OFFSET` is
`0x67`. -/
theorem common_header_tiles :
    Common_header_fields.map (fun f => (f.2.1, f.2.2))
        = [(0, 4), (4, 1), (5, 4), (9, 4), (13, 4), (17, 2)]
      ∧ EVENT_TYPE_OFFSET = 0 + 4
      ∧ SERVER_ID_OFFSET = EVENT_TYPE_OFFSET + 1
      ∧ EVENT_LEN_OFFSET = SERVER_ID_OFFSET + 4
      ∧ LOG_POS_OFFSET = EVENT_LEN_OFFSET + 4
      ∧ FLAGS_OFFSET = LOG_POS_OFFSET + 4
      ∧ tiles_from 0 Common_header_fields = some 19
      ∧ FLAGS_OFFSET + 2 = LOG_EVENT_MINIMAL_HEADER_LEN
      ∧ LOG_EVENT_MINIMAL_HEADER_LEN = LOG_EVENT_HEADER_LEN
      ∧ LOG_EVENT_HEADER_LEN = 19
      ∧ S1_header.length = LOG_EVENT_HEADER_LEN
      ∧ S1_header.getD EVENT_TYPE_OFFSET 0 = 0x0F
      ∧ S1_header.getD EVENT_TYPE_OFFSET 0 = Log_event_type.FORMAT_DESCRIPTION_EVENT.val
      ∧ uint4korr S1_header EVENT_LEN_OFFSET = 0x67 := by
  decide

/-- C8, as the spec states it, fails: `LOG_EVENT_TYPES` is not the number of
event types other than `UNKNOWN_EVENT`, and the type code 36
(`USER_DEFINED_EVENT`) has no entry at index `36 - 1`. -/
theorem log_event_types_excludes_user_defined :
    LOG_EVENT_TYPES
        ≠ ((Log_event_type.enumerators.filter (fun t => t ≠ .UNKNOWN_EVENT)).length : Int)
      ∧ 1 ≤ Log_event_type.USER_DEFINED_EVENT.val
      ∧ Log_event_type.USER_DEFINED_EVENT.val ≤ 36
      ∧ ¬ ((Log_event_type.USER_DEFINED_EVENT.val : Int) - 1 < LOG_EVENT_TYPES) := by
  decide

/-- C8, amended: `LOG_EVENT_TYPES = ENUM_END_EVENT - 2 = 35` is the number of
event types other than `UNKNOWN_EVENT` and `USER_DEFINED_EVENT`, and every type
code `t` with `1 ≤ t ≤ 35` (`START_EVENT_V3` through
`PREVIOUS_GTIDS_LOG_EVENT`) has `t - 1 < LOG_EVENT_TYPES`. -/
theorem log_event_types_in_range (t : Nat) (h1 : 1 ≤ t) (h35 : t ≤ 35) :
    LOG_EVENT_TYPES = (Log_event_type.ENUM_END_EVENT.val : Int) - 2
      ∧ LOG_EVENT_TYPES = 35
      ∧ LOG_EVENT_TYPES
          = ((Log_event_type.enumerators.filter
                (fun t => t ≠ .UNKNOWN_EVENT ∧ t ≠ .USER_DEFINED_EVENT)).length : Int)
      ∧ 0 ≤ (t : Int) - 1
      ∧ (t : Int) - 1 < LOG_EVENT_TYPES := by
  have h : LOG_EVENT_TYPES = 35 := by decide
  refine ⟨rfl, h, by decide, by omega, ?_⟩
  rw [h]; omega

/-- Witness for the amended C8 at `t = 35` (`PREVIOUS_GTIDS_LOG_EVENT`). -/
theorem log_event_types_in_range_witness :
    1 ≤ Log_event_type.PREVIOUS_GTIDS_LOG_EVENT.val
      ∧ (Log_event_type.PREVIOUS_GTIDS_LOG_EVENT.val : Int) - 1 < LOG_EVENT_TYPES :=
  ⟨by decide,
   (log_event_types_in_range Log_event_type.PREVIOUS_GTIDS_LOG_EVENT.val (by decide)
      (by decide)).2.2.2.2⟩

/-! ## Theorems: type codes of the event classes -/

/-- C9: each event class that defines its own constant `get_type_code` returns
the spec's code for that event, whatever the state of the object. -/
theorem get_type_code_constant (q : Query_event) (r : Rotate_event) (s : Start_event_v3)
    (f : Format_description_event) (st : Stop_event) (u : User_var_event)
    (ig : Ignorable_event) (iv : Intvar_event) (inc : Incident_event) (x : Xid_event)
    (ra : Rand_event) (p : Previous_gtids_event) (un : Unknown_event) :
    q.get_type_code.val = 2
      ∧ r.get_type_code.val = 4
      ∧ s.get_type_code.val = 1
      ∧ f.get_type_code.val = 15
      ∧ st.get_type_code.val = 3
      ∧ u.get_type_code.val = 14
      ∧ ig.get_type_code.val = 28
      ∧ iv.get_type_code.val = 5
      ∧ inc.get_type_code.val = 26
      ∧ x.get_type_code.val = 16
      ∧ ra.get_type_code.val = 13
      ∧ p.get_type_code.val = 35
      ∧ un.get_type_code.val = 0 :=
  ⟨rfl, rfl, rfl, rfl, rfl, rfl, rfl, rfl, rfl, rfl, rfl, rfl, rfl⟩

/-- C10: a default-constructed `Rows_query_event`, here with the header type
code 29, reports `IGNORABLE_LOG_EVENT` (28) and not `ROWS_QUERY_LOG_EVENT` (29);
so does every `Rows_query_event`. -/
theorem rows_query_get_type_code :
    (Rows_query_event.init 29 1 20 0).get_type_code = Log_event_type.IGNORABLE_LOG_EVENT
      ∧ (Rows_query_event.init 29 1 20 0).get_type_code.val = 28
      ∧ (Rows_query_event.init 29 1 20 0).get_type_code ≠ Log_event_type.ROWS_QUERY_LOG_EVENT
      ∧ ∀ e : Rows_query_event, e.get_type_code.val = 28 := by
  refine ⟨rfl, rfl, by decide, fun _ => rfl⟩

/-! ## Theorems: Gtid events, status variables, layouts -/

/-- C11, as the spec states it, fails: a `Gtid_event` whose header carries the
type code `GTID` (33) and whose decoded group type is 2 reports
`ANONYMOUS_GTID` (34), and two events with the same header type code report
different types when their group types differ. -/
theorem gtid_type_code_ignores_header :
    (Gtid_event.init true 33 0 ⟨2, [], 0, 0⟩).get_event_type = 33
      ∧ (Gtid_event.init true 33 0 ⟨2, [], 0, 0⟩).get_type_code.val = 34
      ∧ (Gtid_event.init true 33 0 ⟨2, [], 0, 0⟩).get_type_code.val
          ≠ (Gtid_event.init true 33 0 ⟨2, [], 0, 0⟩).get_event_type
      ∧ (Gtid_event.init true 33 0 ⟨1, [], 0, 0⟩).get_event_type
          = (Gtid_event.init true 33 0 ⟨2, [], 0, 0⟩).get_event_type
      ∧ (Gtid_event.init true 33 0 ⟨1, [], 0, 0⟩).get_type_code
          ≠ (Gtid_event.init true 33 0 ⟨2, [], 0, 0⟩).get_type_code := by
  decide

/-- C11, amended: the type a `Gtid_event` reports is determined by its decoded
group type and not by the type code of its header.  When the header code is
`GTID` (33) or `ANONYMOUS_GTID` (34), `get_type_code()` equals it exactly when
the group type is 2 for code 34 and is not 2 for code 33; two events with the
same group type report the same type whatever their header type code, SID and
GNO are. -/
theorem gtid_type_code_by_group_type (g g2 : Gtid_event)
    (hcode : g.get_event_type = 33 ∨ g.get_event_type = 34)
    (htype : g2.gtid_info_struct.type = g.gtid_info_struct.type) :
    (g.get_type_code.val = g.get_event_type
        ↔ (g.gtid_info_struct.type = 2 ↔ g.get_event_type = 34))
      ∧ g2.get_type_code = g.get_type_code := by
  constructor
  · unfold Gtid_event.get_type_code
    by_cases h2 : g.gtid_info_struct.type = 2
    · rw [if_pos h2]
      simp only [Log_event_type.val, h2, true_iff]
      exact ⟨fun h => h.symm, fun h => h.symm⟩
    · rw [if_neg h2]
      simp only [Log_event_type.val, h2, false_iff]
      constructor
      · intro h h34; rw [h34] at h; exact absurd h (by decide)
      · intro h34; rcases hcode with h | h
        · exact h.symm
        · exact absurd h h34
  · unfold Gtid_event.get_type_code
    rw [htype]

/-- Witness for the amended C11: header code 34 with group type 2, next to an
event with header code 33, another SID and GNO and the same group type. -/
theorem gtid_type_code_by_group_type_witness :
    (Gtid_event.init true 34 0 ⟨2, [], 0, 0⟩).get_type_code.val
        = (Gtid_event.init true 34 0 ⟨2, [], 0, 0⟩).get_event_type
      ∧ (Gtid_event.init false 33 7 ⟨2, [1, 2], 3, 9⟩).get_type_code
        = (Gtid_event.init true 34 0 ⟨2, [], 0, 0⟩).get_type_code :=
  have h := gtid_type_code_by_group_type (Gtid_event.init true 34 0 ⟨2, [], 0, 0⟩)
    (Gtid_event.init false 33 7 ⟨2, [1, 2], 3, 9⟩) (Or.inr rfl) rfl
  ⟨h.1.2 (by decide), h.2⟩

/-- Distinct status-variable codes have distinct values. -/
theorem status_vars_val_injective : Function.Injective Query_event_status_vars.val := by
  intro a b h
  cases a <;> cases b <;> first | rfl | (exact absurd h (by decide))

/-- C12: the `Query_event_status_vars` codes are those of the spec's table,
`FLAGS2 = 0` through `COMMIT_TS = 14`, pairwise distinct, and each fits in one
byte. -/
theorem status_vars_codes :
    Query_event_status_vars.Q_FLAGS2_CODE.val = 0
      ∧ Query_event_status_vars.Q_SQL_MODE_CODE.val = 1
      ∧ Query_event_status_vars.Q_CATALOG_CODE.val = 2
      ∧ Query_event_status_vars.Q_AUTO_INCREMENT.val = 3
      ∧ Query_event_status_vars.Q_CHARSET_CODE.val = 4
      ∧ Query_event_status_vars.Q_TIME_ZONE_CODE.val = 5
      ∧ Query_event_status_vars.Q_CATALOG_NZ_CODE.val = 6
      ∧ Query_event_status_vars.Q_LC_TIME_NAMES_CODE.val = 7
      ∧ Query_event_status_vars.Q_CHARSET_DATABASE_CODE.val = 8
      ∧ Query_event_status_vars.Q_TABLE_MAP_FOR_UPDATE_CODE.val = 9
      ∧ Query_event_status_vars.Q_MASTER_DATA_WRITTEN_CODE.val = 10
      ∧ Query_event_status_vars.Q_INVOKER.val = 11
      ∧ Query_event_status_vars.Q_UPDATED_DB_NAMES.val = 12
      ∧ Query_event_status_vars.Q_MICROSECONDS.val = 13
      ∧ Query_event_status_vars.Q_COMMIT_TS.val = 14
      ∧ Function.Injective Query_event_status_vars.val
      ∧ Query_event_status_vars.enumerators.map Query_event_status_vars.val = List.range 15
      ∧ ∀ v : Query_event_status_vars, v.val < 256 := by
  refine ⟨rfl, rfl, rfl, rfl, rfl, rfl, rfl, rfl, rfl, rfl, rfl, rfl, rfl, rfl, rfl,
    status_vars_val_injective, by decide, fun v => ?_⟩
  cases v <;> decide

/-- C13: the `Query_event` post-header offsets tile the v4 post-header:
`thread_id` 0/4, `exec_time` 4/4, `db_len` 8/1, `error_code` 9/2,
`status_vars_len` 11/2, the body starts at `Q_DATA_OFFSET = QUERY_HEADER_LEN =
13`, and the older form has length `QUERY_HEADER_MINIMAL_LEN = 11 =
QUERY_HEADER_LEN - 2 = Q_STATUS_VARS_LEN_OFFSET`. -/
theorem query_post_header_tiles :
    Query_post_header_fields.map (fun f => (f.2.1, f.2.2))
        = [(0, 4), (4, 4), (8, 1), (9, 2), (11, 2)]
      ∧ Q_THREAD_ID_OFFSET = 0
      ∧ Q_EXEC_TIME_OFFSET = Q_THREAD_ID_OFFSET + 4
      ∧ Q_DB_LEN_OFFSET = Q_EXEC_TIME_OFFSET + 4
      ∧ Q_ERR_CODE_OFFSET = Q_DB_LEN_OFFSET + 1
      ∧ Q_STATUS_VARS_LEN_OFFSET = Q_ERR_CODE_OFFSET + 2
      ∧ Q_DATA_OFFSET = Q_STATUS_VARS_LEN_OFFSET + 2
      ∧ tiles_from 0 Query_post_header_fields = some Q_DATA_OFFSET.toNat
      ∧ Q_DATA_OFFSET = QUERY_HEADER_LEN
      ∧ QUERY_HEADER_LEN = 13
      ∧ QUERY_HEADER_MINIMAL_LEN = 11
      ∧ QUERY_HEADER_MINIMAL_LEN = QUERY_HEADER_LEN - 2
      ∧ QUERY_HEADER_MINIMAL_LEN = Q_STATUS_VARS_LEN_OFFSET
      ∧ tiles_from 0 Query_post_header_fields.dropLast
          = some QUERY_HEADER_MINIMAL_LEN.toNat := by
  decide

/-- C14: the start-event post-header offsets tile the fixed part of the
`FORMAT_DESCRIPTION` post-header: `binlog_version` 0/2, `server_version` 2/50,
`created` 52/4, `common_header_len` 56/1; `START_V3_HEADER_LEN = 56`, the fixed
part is 57 bytes and `FORMAT_DESCRIPTION_HEADER_LEN = 57 + LOG_EVENT_TYPES`. -/
theorem start_post_header_tiles :
    Start_post_header_fields.map (fun f => (f.2.1, f.2.2))
        = [(0, 2), (2, 50), (52, 4), (56, 1)]
      ∧ ST_BINLOG_VER_OFFSET = 0
      ∧ ST_SERVER_VER_OFFSET = ST_BINLOG_VER_OFFSET + 2
      ∧ ST_SERVER_VER_LEN = 50
      ∧ ST_CREATED_OFFSET = 52
      ∧ ST_COMMON_HEADER_LEN_OFFSET = 56
      ∧ tiles_from 0 Start_post_header_fields.dropLast = some START_V3_HEADER_LEN.toNat
      ∧ START_V3_HEADER_LEN = 56
      ∧ START_V3_HEADER_LEN = ST_COMMON_HEADER_LEN_OFFSET
      ∧ tiles_from 0 Start_post_header_fields = some (START_V3_HEADER_LEN + 1).toNat
      ∧ START_V3_HEADER_LEN + 1 = 57
      ∧ FORMAT_DESCRIPTION_HEADER_LEN = 57 + LOG_EVENT_TYPES := by
  decide

/-- C15: the checksum algorithm descriptors are `OFF = 0`, `CRC32 = 1`,
`UNDEF = 255`, each within one byte and pairwise distinct; `UNDEF` is outside
the valid range `[1, 0x7f]`, `BINLOG_CHECKSUM_ALG_ENUM_END = 2`; the checksum
takes `BINLOG_CHECKSUM_LEN = 4` bytes and its descriptor
`BINLOG_CHECKSUM_ALG_DESC_LEN = 1` byte, 5 bytes together. -/
theorem checksum_alg_values :
    enum_binlog_checksum_alg.BINLOG_CHECKSUM_ALG_OFF.val = 0
      ∧ enum_binlog_checksum_alg.BINLOG_CHECKSUM_ALG_CRC32.val = 1
      ∧ enum_binlog_checksum_alg.BINLOG_CHECKSUM_ALG_UNDEF.val = 255
      ∧ enum_binlog_checksum_alg.BINLOG_CHECKSUM_ALG_ENUM_END.val = 2
      ∧ (∀ a : enum_binlog_checksum_alg, a.val < 256)
      ∧ Function.Injective enum_binlog_checksum_alg.val
      ∧ ¬ (1 ≤ enum_binlog_checksum_alg.BINLOG_CHECKSUM_ALG_UNDEF.val
            ∧ enum_binlog_checksum_alg.BINLOG_CHECKSUM_ALG_UNDEF.val ≤ 0x7f)
      ∧ BINLOG_CHECKSUM_LEN = 4
      ∧ BINLOG_CHECKSUM_ALG_DESC_LEN = 1
      ∧ BINLOG_CHECKSUM_LEN + BINLOG_CHECKSUM_ALG_DESC_LEN = 5 := by
  refine ⟨rfl, rfl, rfl, rfl, fun a => by cases a <;> decide, ?_, by decide, rfl, rfl, rfl⟩
  intro a b h
  cases a <;> cases b <;> first | rfl | (exact absurd h (by decide))

/-- C16: the post-header length is 0 for every type the spec gives an empty
post-header (`STOP`, `INTVAR`, `RAND`, `XID`, `HEARTBEAT`, `IGNORABLE`), and
`ROTATE_HEADER_LEN = 8 = R_IDENT_OFFSET`, the size of the 64-bit position at
`R_POS_OFFSET = 0`. -/
theorem post_header_lengths :
    STOP_HEADER_LEN = 0
      ∧ INTVAR_HEADER_LEN = 0
      ∧ RAND_HEADER_LEN = 0
      ∧ XID_HEADER_LEN = 0
      ∧ HEARTBEAT_HEADER_LEN = 0
      ∧ IGNORABLE_HEADER_LEN = 0
      ∧ ROTATE_HEADER_LEN = 8
      ∧ ROTATE_HEADER_LEN = 64 / 8
      ∧ ROTATE_HEADER_LEN = R_IDENT_OFFSET
      ∧ R_POS_OFFSET = 0
      ∧ R_IDENT_OFFSET = R_POS_OFFSET + 8 := by
  decide

/-- C17: with `server_version_split = (a, b, c)`, `is_version_before_checksum()`
is true if and only if `(a, b, c)` is lexicographically less than `(5, 6, 1)`; it
is true for `(5, 6, 0)` and false for `(5, 6, 1)`, and the split of `"5.6.1-log"`
is `(5, 6, 1)`, that of `"5.5.99"` is `(5, 5, 99)`. -/
theorem version_before_checksum_iff (f : Format_description_event) (a b c : Nat)
    (h : f.server_version_split = [a, b, c]) :
    (f.is_version_before_checksum = true
        ↔ a < 5 ∨ (a = 5 ∧ (b < 6 ∨ (b = 6 ∧ c < 1))))
      ∧ (Format_description_event.of_version [] [5, 6, 0]).is_version_before_checksum = true
      ∧ (Format_description_event.of_version [] [5, 6, 1]).is_version_before_checksum = false
      ∧ (Format_description_event.of_version (bytes_of "5.6.1-log")
            []).calc_server_version_split.server_version_split = [5, 6, 1]
      ∧ (Format_description_event.of_version (bytes_of "5.5.99")
            []).calc_server_version_split.server_version_split = [5, 5, 99] := by
  refine ⟨?_, by decide, by decide, by decide, by decide⟩
  unfold Format_description_event.is_version_before_checksum
  rw [h]
  simp [lex_lt]

/-- Witness for C17: the split `(5, 5, 99)` computed from `"5.5.99"` is before
the checksum version. -/
theorem version_before_checksum_iff_witness :
    (Format_description_event.of_version (bytes_of "5.5.99")
        []).calc_server_version_split.is_version_before_checksum = true :=
  (version_before_checksum_iff
    (Format_description_event.of_version (bytes_of "5.5.99") []).calc_server_version_split
    5 5 99 (by decide)).1.2 (by decide)

/-- C19: `MAX_SIZE_LOG_EVENT_STATUS` evaluates to 3730 while the status variables
of a current master, each with its code byte and maximal payload, take 3742
bytes; the estimate lacks the 9 bytes of `COMMIT_TS`, the count byte of the
updated database names, the length byte of the user and one of the four bytes of
the microseconds. -/
theorem max_size_log_event_status_too_small :
    MAX_SIZE_LOG_EVENT_STATUS = 3730
      ∧ max_status_vars_block = 3742
      ∧ ¬ (max_status_vars_block ≤ MAX_SIZE_LOG_EVENT_STATUS)
      ∧ max_status_vars_block - MAX_SIZE_LOG_EVENT_STATUS
          = (1 + COMMIT_SEQ_LEN) + 1 + 1 + 1
      ∧ 1 + status_var_max_payload .Q_COMMIT_TS = 1 + COMMIT_SEQ_LEN := by
  decide

/-- C20: a database name of `64 * 3` bytes with its terminating zero takes
`64 * 3 + 1 = 193` bytes and does not fit in a slot of `NAME_LEN = 192` bytes of
`mts_accessed_db_names`, although the status-variable estimate allows
`1 + NAME_LEN` bytes per name; the number of slots, 16, does lie in
`[1, OVER_MAX_DBS_IN_EVENT_MTS]` and `OVER_MAX_DBS_IN_EVENT_MTS = 254` fits in
one byte. -/
theorem db_name_slot_too_small :
    NAME_LEN = 192
      ∧ ((List.replicate (64 * 3) 97 ++ [0]).length : Int) = 64 * 3 + 1
      ∧ ((List.replicate (64 * 3) 97 ++ [0]).length : Int) = 1 + NAME_LEN
      ∧ ¬ (((List.replicate (64 * 3) 97 ++ [0]).length : Int) ≤ NAME_LEN)
      ∧ ¬ (64 * 3 + 1 ≤ NAME_LEN)
      ∧ MAX_DBS_IN_EVENT_MTS = 16
      ∧ 1 ≤ MAX_DBS_IN_EVENT_MTS
      ∧ MAX_DBS_IN_EVENT_MTS ≤ OVER_MAX_DBS_IN_EVENT_MTS
      ∧ OVER_MAX_DBS_IN_EVENT_MTS = 254
      ∧ OVER_MAX_DBS_IN_EVENT_MTS < 256 := by
  have hlen : ((List.replicate (64 * 3) 97 ++ [0]).length : Int) = 193 := by
    rw [List.length_append, List.length_replicate]; rfl
  have hname : NAME_LEN = 192 := by decide
  rw [hlen, hname]
  decide

/-! ## Theorems: checksum -/

theorem crc32_bit_lt (c : Nat) (hc : c < 2 ^ 32) : crc32_bit c < 2 ^ 32 := by
  unfold crc32_bit
  apply Nat.xor_lt_two_pow
  · rw [Nat.shiftRight_eq_div_pow]; omega
  · split <;> decide

/-- A register shifted right by one has its top bit clear, so adding the
polynomial, whose top bit is set, sets it. -/
theorem crc32_bit_top (x : Nat) (hx : x < 2 ^ 31) : 2 ^ 31 ≤ x ^^^ 0xEDB88320 := by
  apply Nat.testBit_implies_ge
  rw [Nat.testBit_xor, Nat.testBit_lt_two_pow hx]
  decide

/-- One bit step is injective on 32-bit registers. -/
theorem crc32_bit_inj (c d : Nat) (hc : c < 2 ^ 32) (hd : d < 2 ^ 32)
    (h : crc32_bit c = crc32_bit d) : c = d := by
  unfold crc32_bit at h
  rw [Nat.shiftRight_eq_div_pow, Nat.shiftRight_eq_div_pow] at h
  have hc2 : c / 2 ^ 1 < 2 ^ 31 := by omega
  have hd2 : d / 2 ^ 1 < 2 ^ 31 := by omega
  by_cases h1 : c % 2 = 1 <;> by_cases h2 : d % 2 = 1
  · rw [if_pos h1, if_pos h2] at h
    have := Nat.xor_left_inj.mp h
    omega
  · rw [if_pos h1, if_neg h2, Nat.xor_zero] at h
    have := crc32_bit_top _ hc2
    omega
  · rw [if_neg h1, if_pos h2, Nat.xor_zero] at h
    have := crc32_bit_top _ hd2
    omega
  · rw [if_neg h1, if_neg h2, Nat.xor_zero, Nat.xor_zero] at h
    omega

theorem crc32_bits_lt (n c : Nat) (hc : c < 2 ^ 32) : crc32_bits n c < 2 ^ 32 := by
  induction n generalizing c with
  | zero => exact hc
  | succ n ih => exact ih _ (crc32_bit_lt c hc)

theorem crc32_bits_inj (n c d : Nat) (hc : c < 2 ^ 32) (hd : d < 2 ^ 32)
    (h : crc32_bits n c = crc32_bits n d) : c = d := by
  induction n generalizing c d with
  | zero => exact h
  | succ n ih =>
    exact crc32_bit_inj c d hc hd (ih _ _ (crc32_bit_lt c hc) (crc32_bit_lt d hd) h)

theorem byte_lt (b : Nat) : b % 256 < 2 ^ 32 := by omega

theorem crc32_byte_lt (c b : Nat) (hc : c < 2 ^ 32) : crc32_byte c b < 2 ^ 32 :=
  crc32_bits_lt 8 _ (Nat.xor_lt_two_pow hc (byte_lt b))

/-- The byte step is injective in the register. -/
theorem crc32_byte_inj_state (c d b : Nat) (hc : c < 2 ^ 32) (hd : d < 2 ^ 32)
    (h : crc32_byte c b = crc32_byte d b) : c = d :=
  Nat.xor_left_inj.mp
    (crc32_bits_inj 8 _ _ (Nat.xor_lt_two_pow hc (byte_lt b))
      (Nat.xor_lt_two_pow hd (byte_lt b)) h)

/-- The byte step is injective in the byte. -/
theorem crc32_byte_inj_byte (c b b2 : Nat) (hc : c < 2 ^ 32)
    (h : crc32_byte c b = crc32_byte c b2) : b % 256 = b2 % 256 :=
  Nat.xor_right_inj.mp
    (crc32_bits_inj 8 _ _ (Nat.xor_lt_two_pow hc (byte_lt b))
      (Nat.xor_lt_two_pow hc (byte_lt b2)) h)

theorem crc32_fold_lt (l : List Nat) (c : Nat) (hc : c < 2 ^ 32) :
    l.foldl crc32_byte c < 2 ^ 32 := by
  induction l generalizing c with
  | nil => exact hc
  | cons b l ih => exact ih _ (crc32_byte_lt c b hc)

theorem crc32_fold_inj (l : List Nat) (c d : Nat) (hc : c < 2 ^ 32) (hd : d < 2 ^ 32)
    (h : l.foldl crc32_byte c = l.foldl crc32_byte d) : c = d := by
  induction l generalizing c d with
  | nil => exact h
  | cons b l ih =>
    exact crc32_byte_inj_state c d b hc hd
      (ih _ _ (crc32_byte_lt c b hc) (crc32_byte_lt d b hd) h)

/-- Two blocks that differ in one byte leave different registers. -/
theorem crc32_fold_one_byte (pre post : List Nat) (b b2 c : Nat) (hc : c < 2 ^ 32)
    (h : (pre ++ b :: post).foldl crc32_byte c = (pre ++ b2 :: post).foldl crc32_byte c) :
    b % 256 = b2 % 256 := by
  rw [List.foldl_append, List.foldl_append, List.foldl_cons, List.foldl_cons] at h
  have hs := crc32_fold_lt pre c hc
  exact crc32_byte_inj_byte _ b b2 hs
    (crc32_fold_inj post _ _ (crc32_byte_lt _ b hs) (crc32_byte_lt _ b2 hs) h)

theorem crc32_init_lt (crc : Nat) : (crc % 2 ^ 32) ^^^ 0xFFFFFFFF < 2 ^ 32 :=
  Nat.xor_lt_two_pow (Nat.mod_lt _ (by decide)) (by decide)

theorem crc32_lt (crc : Nat) (block : List Nat) : crc32 crc block < 2 ^ 32 :=
  Nat.xor_lt_two_pow (crc32_fold_lt block _ (crc32_init_lt crc)) (by decide)

/-- The checksum of a whole block is the CRC-32 of the block. -/
theorem checksum_crc32_whole (crc : Nat) (block rest : List Nat) :
    checksum_crc32 crc (block ++ rest) block.length = crc32 crc block := by
  unfold checksum_crc32
  rw [List.take_left' rfl]
  exact Nat.mod_eq_of_lt (crc32_lt crc block)

/-- Two blocks that differ in one byte have different CRC-32 values. -/
theorem crc32_one_byte (crc : Nat) (pre post : List Nat) (b b2 : Nat)
    (hb : b % 256 ≠ b2 % 256) :
    crc32 crc (pre ++ b :: post) ≠ crc32 crc (pre ++ b2 :: post) := by
  intro h
  unfold crc32 at h
  exact hb (crc32_fold_one_byte pre post b b2 _ (crc32_init_lt crc) (Nat.xor_left_inj.mp h))

/-- Flipping one of the eight bits of a byte changes the byte. -/
theorem flip_bit_ne (b k : Nat) (hk : k < 8) : (b ^^^ 2 ^ k) % 256 ≠ b % 256 := by
  intro h
  have h8 : (256 : Nat) = 2 ^ 8 := by decide
  rw [h8] at h
  have ht := congrArg (fun x => Nat.testBit x k) h
  simp only [Nat.testBit_mod_two_pow, Nat.testBit_xor, Nat.testBit_two_pow_self, hk,
    decide_True, Bool.true_and] at ht
  cases hb : b.testBit k <;> rw [hb] at ht <;> exact absurd ht (by decide)

/-- Reading back the four bytes stored behind a block. -/
theorem uint4korr_int4store (block : List Nat) (v : Nat) (hv : v < 2 ^ 32) :
    uint4korr (block ++ int4store v) block.length = v := by
  unfold uint4korr
  rw [List.getD_append_right _ _ _ _ (Nat.le_refl _),
    List.getD_append_right _ _ _ _ (Nat.le_add_right _ 1),
    List.getD_append_right _ _ _ _ (Nat.le_add_right _ 2),
    List.getD_append_right _ _ _ _ (Nat.le_add_right _ 3)]
  simp only [Nat.sub_self, Nat.add_sub_cancel_left, int4store]
  simp only [List.getD_cons_zero, List.getD_cons_succ]
  norm_num
  omega

/-- C18: in an event whose last four bytes are the little-endian
`checksum_crc32` of the bytes before them, flipping any one bit `k` of any byte
`b` before the checksum field changes the value `checksum_crc32` computes, so
`event_checksum_test` with `CRC32` reports a mismatch (and none for the intact
event); with `OFF` or `UNDEF` the test never reports a mismatch. -/
theorem crc32_detects_bit_flip (pre post : List Nat) (b k : Nat) (hk : k < 8) :
    5 ≤ (pre ++ b :: post
          ++ int4store (checksum_crc32 0 (pre ++ b :: post) (pre ++ b :: post).length)).length
      ∧ event_checksum_test
          (pre ++ b :: post
            ++ int4store (checksum_crc32 0 (pre ++ b :: post) (pre ++ b :: post).length))
          ((pre ++ b :: post).length + 4) .BINLOG_CHECKSUM_ALG_CRC32 = false
      ∧ checksum_crc32 0 (pre ++ (b ^^^ 2 ^ k) :: post) (pre ++ (b ^^^ 2 ^ k) :: post).length
          ≠ checksum_crc32 0 (pre ++ b :: post) (pre ++ b :: post).length
      ∧ event_checksum_test
          (pre ++ (b ^^^ 2 ^ k) :: post
            ++ int4store (checksum_crc32 0 (pre ++ b :: post) (pre ++ b :: post).length))
          ((pre ++ (b ^^^ 2 ^ k) :: post).length + 4) .BINLOG_CHECKSUM_ALG_CRC32 = true
      ∧ ∀ (buf : List Nat) (event_len : Nat),
          event_checksum_test buf event_len .BINLOG_CHECKSUM_ALG_OFF = false
            ∧ event_checksum_test buf event_len .BINLOG_CHECKSUM_ALG_UNDEF = false := by
  have hw : ∀ l : List Nat, checksum_crc32 0 l l.length = crc32 0 l := fun l => by
    have := checksum_crc32_whole 0 l []
    rwa [List.append_nil] at this
  have hne : crc32 0 (pre ++ (b ^^^ 2 ^ k) :: post) ≠ crc32 0 (pre ++ b :: post) :=
    crc32_one_byte 0 pre post _ _ (flip_bit_ne b k hk)
  have hlen : ∀ n : Nat, n + 4 - BINLOG_CHECKSUM_LEN = n := fun n => by
    simp [BINLOG_CHECKSUM_LEN, CHECKSUM_CRC32_SIGNATURE_LEN]
  refine ⟨?_, ?_, ?_, ?_, fun _ _ => ⟨rfl, rfl⟩⟩
  · simp [int4store]; omega
  · simp only [event_checksum_test, hlen, hw, checksum_crc32_whole,
      uint4korr_int4store _ _ (crc32_lt _ _), bne_self_eq_false]
  · rw [hw, hw]; exact hne
  · simp only [event_checksum_test, hlen, hw, checksum_crc32_whole,
      uint4korr_int4store _ _ (crc32_lt _ _)]
    exact bne_iff_ne.mpr hne

/-- Witness for C18: the event body `[1, 2, 3]` with the lowest bit of its
second byte flipped. -/
theorem crc32_detects_bit_flip_witness :
    (0 : Nat) < 8
      ∧ event_checksum_test
          ([1] ++ (2 ^^^ 2 ^ 0) :: [3]
            ++ int4store (checksum_crc32 0 ([1] ++ 2 :: [3]) ([1] ++ 2 :: [3]).length))
          (([1] ++ (2 ^^^ 2 ^ 0) :: [3]).length + 4) .BINLOG_CHECKSUM_ALG_CRC32 = true :=
  ⟨by decide, (crc32_detects_bit_flip [1] [3] 2 0 (by decide)).2.2.2.1⟩

/-- The modelled CRC-32 gives the zlib values of the one-byte blocks `"1"` and
`"a"` and of the empty block. -/
theorem crc32_known_values :
    checksum_crc32 0 (bytes_of "1") 1 = 0x83DCEFB7
      ∧ checksum_crc32 0 (bytes_of "a") 1 = 0xE8B7BE43
      ∧ checksum_crc32 0 [] 0 = 0 := by
  decide

/-! ## Theorems: query event accessors, header sizes, user variables -/

/-- C21, as the spec states it, fails: after `set_db` with a name of 256 bytes
`db_len` is 256, which the one-byte `db_len` field cannot hold. -/
theorem set_db_len_exceeds_byte :
    (Query_event.empty.set_db (List.replicate 256 97)).db_len = 256
      ∧ ¬ ((Query_event.empty.set_db (List.replicate 256 97)).db_len ≤ 255) := by
  have h : (Query_event.empty.set_db (List.replicate 256 97)).db_len = 256 := by
    have hg : ∀ s : List Nat, (Query_event.empty.set_db s).db_len = s.length % 2 ^ 32 :=
      fun _ => rfl
    rw [hg, List.length_replicate]
    decide
  exact ⟨h, by rw [h]; decide⟩

/-- C21, amended: for every string `s` of length below `2 ^ 32`, after
`set_db(s)` the event's `db_len` is the length of the database name, and it is
representable in the one-byte `db_len` field (`db_len ≤ 255`) if and only if
`s` has at most 255 bytes. -/
theorem set_db_len (q : Query_event) (s : List Nat) (hs : s.length < 2 ^ 32) :
    (q.set_db s).get_db = s
      ∧ (q.set_db s).db_len = (q.set_db s).get_db.length
      ∧ ((q.set_db s).db_len ≤ 255 ↔ s.length ≤ 255) := by
  have h : (q.set_db s).db_len = s.length := Nat.mod_eq_of_lt hs
  exact ⟨rfl, h, by rw [h]⟩

/-- Witness for the amended C21: the database name `"db1"`. -/
theorem set_db_len_witness :
    (Query_event.empty.set_db (bytes_of "db1")).db_len = 3
      ∧ (Query_event.empty.set_db (bytes_of "db1")).db_len ≤ 255 :=
  have h := set_db_len Query_event.empty (bytes_of "db1") (by decide)
  ⟨h.2.1, h.2.2.2 (by decide)⟩

/-- C22, as the spec states it, fails: the `data_written` field of the S1 header
is `0x67 = 103`, the event the scenario lists takes
`19 + 57 + 38 + 1 + 4 = 119` bytes. -/
theorem s1_data_written_mismatch :
    uint4korr S1_header EVENT_LEN_OFFSET = 103
      ∧ (LOG_EVENT_MINIMAL_HEADER_LEN : Int) + (START_V3_HEADER_LEN + 1)
          + S1_post_header_len_bytes + BINLOG_CHECKSUM_ALG_DESC_LEN + BINLOG_CHECKSUM_LEN = 119
      ∧ (uint4korr S1_header EVENT_LEN_OFFSET : Int)
          ≠ (LOG_EVENT_MINIMAL_HEADER_LEN : Int) + (START_V3_HEADER_LEN + 1)
            + S1_post_header_len_bytes + BINLOG_CHECKSUM_ALG_DESC_LEN + BINLOG_CHECKSUM_LEN := by
  decide

/-- C22, amended: the `data_written` field of the S1 header (`0x67 = 103`) is 16
less than the size of the event the scenario lists, the sum of
`LOG_EVENT_MINIMAL_HEADER_LEN` (19), the fixed post-header
`START_V3_HEADER_LEN + 1` (57), 38 post-header-length bytes,
`BINLOG_CHECKSUM_ALG_DESC_LEN` (1) and `BINLOG_CHECKSUM_LEN` (4). -/
theorem s1_data_written_short_by_16 :
    LOG_EVENT_MINIMAL_HEADER_LEN = 19
      ∧ START_V3_HEADER_LEN + 1 = 57
      ∧ S1_post_header_len_bytes = 38
      ∧ BINLOG_CHECKSUM_ALG_DESC_LEN = 1
      ∧ BINLOG_CHECKSUM_LEN = 4
      ∧ (uint4korr S1_header EVENT_LEN_OFFSET : Int) + 16
          = (LOG_EVENT_MINIMAL_HEADER_LEN : Int) + (START_V3_HEADER_LEN + 1)
            + S1_post_header_len_bytes + BINLOG_CHECKSUM_ALG_DESC_LEN + BINLOG_CHECKSUM_LEN := by
  decide

/-- C23, as the spec states it, fails: the three constants are not all 19,
because the separately named `LOG_EVENT_HEADER_SIZE` is defined as 20. -/
theorem log_event_header_size_not_19 :
    LOG_EVENT_HEADER_SIZE = 20
      ∧ ¬ (LOG_EVENT_HEADER_LEN = LOG_EVENT_MINIMAL_HEADER_LEN
            ∧ LOG_EVENT_MINIMAL_HEADER_LEN = LOG_EVENT_HEADER_SIZE
            ∧ LOG_EVENT_HEADER_SIZE = 19) := by
  decide

/-- C23, amended: the constants that name the length of the common event header,
`LOG_EVENT_HEADER_LEN` and `LOG_EVENT_MINIMAL_HEADER_LEN`, are 19, the size the
documented header fields add up to, and `OLD_HEADER_LEN = 13` is strictly
smaller; the separately named `LOG_EVENT_HEADER_SIZE` is 20, one more than the
header length. -/
theorem log_event_header_size_is_20 :
    LOG_EVENT_HEADER_LEN = 19
      ∧ LOG_EVENT_MINIMAL_HEADER_LEN = 19
      ∧ tiles_from 0 Common_header_fields = some LOG_EVENT_HEADER_LEN
      ∧ OLD_HEADER_LEN = 13
      ∧ OLD_HEADER_LEN < LOG_EVENT_HEADER_LEN
      ∧ LOG_EVENT_HEADER_SIZE = 20
      ∧ LOG_EVENT_HEADER_SIZE ≠ 19
      ∧ LOG_EVENT_HEADER_SIZE ≠ LOG_EVENT_HEADER_LEN
      ∧ tiles_from 0 Common_header_fields ≠ some LOG_EVENT_HEADER_SIZE := by
  decide

/-- C24, as the spec states it, fails: a value length of `2 ^ 32` is not stored
as given, the 32-bit member `val_len` holds 0. -/
theorem user_var_val_len_truncated :
    (User_var_event.ctor (Binary_log_event.init 14 1 0) 1000 1 2000 (2 ^ 32)
        .STRING_TYPE 33 0).val_len = 0
      ∧ (User_var_event.ctor (Binary_log_event.init 14 1 0) 1000 1 2000 (2 ^ 32)
        .STRING_TYPE 33 0).val_len ≠ 2 ^ 32 := by
  decide

/-- C24, amended: the value-carrying `User_var_event` constructor stores `name`,
`name_len`, `val`, `type`, `charset_number` and `flags` exactly as given and
`val_len` reduced modulo `2 ^ 32` (so exactly as given if and only if it is
below `2 ^ 32`); `is_null` is true if and only if `val` is the null pointer,
whatever `val_len` is; the `Value_type` codes are `STRING = 0`, `REAL = 1`,
`INT = 2`, `ROW = 3`, `DECIMAL = 4` and `VALUE_TYPE_COUNT = 5`. -/
theorem user_var_ctor_fields (base : Binary_log_event) (name_arg name_len_arg val_arg
    val_len_arg val_len_arg2 : Nat) (type_arg : Value_type)
    (charset_number_arg flags_arg : Nat) :
    (User_var_event.ctor base name_arg name_len_arg val_arg val_len_arg type_arg
        charset_number_arg flags_arg).name = name_arg
      ∧ (User_var_event.ctor base name_arg name_len_arg val_arg val_len_arg type_arg
        charset_number_arg flags_arg).name_len = name_len_arg
      ∧ (User_var_event.ctor base name_arg name_len_arg val_arg val_len_arg type_arg
        charset_number_arg flags_arg).val = val_arg
      ∧ (User_var_event.ctor base name_arg name_len_arg val_arg val_len_arg type_arg
        charset_number_arg flags_arg).val_len = val_len_arg % 2 ^ 32
      ∧ ((User_var_event.ctor base name_arg name_len_arg val_arg val_len_arg type_arg
        charset_number_arg flags_arg).val_len = val_len_arg ↔ val_len_arg < 2 ^ 32)
      ∧ (User_var_event.ctor base name_arg name_len_arg val_arg val_len_arg type_arg
        charset_number_arg flags_arg).type = type_arg
      ∧ (User_var_event.ctor base name_arg name_len_arg val_arg val_len_arg type_arg
        charset_number_arg flags_arg).charset_number = charset_number_arg
      ∧ (User_var_event.ctor base name_arg name_len_arg val_arg val_len_arg type_arg
        charset_number_arg flags_arg).flags = flags_arg
      ∧ ((User_var_event.ctor base name_arg name_len_arg val_arg val_len_arg type_arg
        charset_number_arg flags_arg).is_null = true ↔ val_arg = 0)
      ∧ (User_var_event.ctor base name_arg name_len_arg val_arg val_len_arg type_arg
          charset_number_arg flags_arg).is_null
        = (User_var_event.ctor base name_arg name_len_arg val_arg val_len_arg2 type_arg
          charset_number_arg flags_arg).is_null
      ∧ Value_type.STRING_TYPE.val = 0
      ∧ Value_type.REAL_TYPE.val = 1
      ∧ Value_type.INT_TYPE.val = 2
      ∧ Value_type.ROW_TYPE.val = 3
      ∧ Value_type.DECIMAL_TYPE.val = 4
      ∧ Value_type.VALUE_TYPE_COUNT.val = 5 := by
  refine ⟨rfl, rfl, rfl, rfl, ?_, rfl, rfl, rfl, ?_, rfl, rfl, rfl, rfl, rfl, rfl, rfl⟩
  · show val_len_arg % 2 ^ 32 = val_len_arg ↔ val_len_arg < 2 ^ 32
    constructor
    · intro h; omega
    · intro h; exact Nat.mod_eq_of_lt h
  · show decide (val_arg = 0) = true ↔ val_arg = 0
    exact decide_eq_true_iff

/-- C25: `Gtid_event::get_type_code` returns `ANONYMOUS_GTID_LOG_EVENT` (34)
exactly when `gtid_info_struct.type` is the value of `ANONYMOUS_GROUP`, which is
the literal 2 of the code, and `GTID_LOG_EVENT` (33) for every other value,
among them `AUTOMATIC_GROUP`, `GTID_GROUP`, `INVALID_GROUP` and
`UNDEFINED_GROUP`; the result is always 33 or 34. -/
theorem gtid_get_type_code_cases (g : Gtid_event) :
    enum_group_type.ANONYMOUS_GROUP.val = 2
      ∧ (g.get_type_code = .ANONYMOUS_GTID_LOG_EVENT
          ↔ g.gtid_info_struct.type = enum_group_type.ANONYMOUS_GROUP.val)
      ∧ (g.get_type_code = .GTID_LOG_EVENT
          ↔ g.gtid_info_struct.type ≠ enum_group_type.ANONYMOUS_GROUP.val)
      ∧ (g.get_type_code.val = 33 ∨ g.get_type_code.val = 34)
      ∧ Log_event_type.ANONYMOUS_GTID_LOG_EVENT.val = 34
      ∧ Log_event_type.GTID_LOG_EVENT.val = 33
      ∧ (Gtid_event.init true 33 0
            ⟨enum_group_type.AUTOMATIC_GROUP.val, [], 0, 0⟩).get_type_code.val = 33
      ∧ (Gtid_event.init true 33 0
            ⟨enum_group_type.GTID_GROUP.val, [], 0, 0⟩).get_type_code.val = 33
      ∧ (Gtid_event.init true 33 0
            ⟨enum_group_type.ANONYMOUS_GROUP.val, [], 0, 0⟩).get_type_code.val = 34
      ∧ (Gtid_event.init true 33 0
            ⟨enum_group_type.INVALID_GROUP.val, [], 0, 0⟩).get_type_code.val = 33
      ∧ (Gtid_event.init true 33 0
            ⟨enum_group_type.UNDEFINED_GROUP.val, [], 0, 0⟩).get_type_code.val = 33
      ∧ (Gtid_event.init true 33 0 ⟨255, [], 0, 0⟩).get_type_code.val = 33 := by
  have h2 : enum_group_type.ANONYMOUS_GROUP.val = 2 := rfl
  refine ⟨h2, ?_, ?_, ?_, rfl, rfl, rfl, rfl, rfl, rfl, rfl, rfl⟩
  all_goals
    unfold Gtid_event.get_type_code
    try rw [h2]
    by_cases h : g.gtid_info_struct.type = 2
    · simp [h, Log_event_type.val]
    · simp [h, Log_event_type.val]

/-- C30: every value of `Binary_log_event::enum_post_header_length` lies in
`0..255` and so fits one `uint8_t` entry of the `post_header_len` table, among
them `FORMAT_DESCRIPTION_HEADER_LEN = START_V3_HEADER_LEN + 1 + LOG_EVENT_TYPES`
and `EXECUTE_LOAD_QUERY_HEADER_LEN = QUERY_HEADER_LEN + 13 = 26`. -/
theorem post_header_lengths_fit_byte :
    enum_post_header_length_values.length = 25
      ∧ enum_post_header_length_values.all (fun v => decide (0 ≤ v ∧ v ≤ 255)) = true
      ∧ FORMAT_DESCRIPTION_HEADER_LEN = START_V3_HEADER_LEN + 1 + LOG_EVENT_TYPES
      ∧ FORMAT_DESCRIPTION_HEADER_LEN = 92
      ∧ (0 ≤ FORMAT_DESCRIPTION_HEADER_LEN ∧ FORMAT_DESCRIPTION_HEADER_LEN ≤ 255)
      ∧ EXECUTE_LOAD_QUERY_HEADER_LEN = QUERY_HEADER_LEN + 13
      ∧ EXECUTE_LOAD_QUERY_HEADER_LEN = 26
      ∧ (0 ≤ EXECUTE_LOAD_QUERY_HEADER_LEN ∧ EXECUTE_LOAD_QUERY_HEADER_LEN ≤ 255)
      ∧ enum_post_header_length_values.map (fun v => v % 256)
          = enum_post_header_length_values := by
  decide

/-! ## Theorems: progress and failure of the string reader -/

/-- A successful read implies that the guard of the function did not fire. -/
theorem read_str_guard_of_ok (mem : Nat → Nat) (buf_end : Nat) (a : Str_args)
    (hok : (read_str_at_most_255_bytes mem buf_end a).1 = 0) :
    a.buf + mem a.buf % 256 < buf_end := by
  by_cases hc : buf_end ≤ a.buf + mem a.buf % 256
  · rw [read_str_fail mem buf_end a hc] at hok
    exact absurd hok (show ¬ ((1 : Nat) = 0) by decide)
  · omega

/-- Successive successful reads advance the cursor by at least one byte each and
keep it within the buffer. -/
theorem read_str_seq_advances (mem : Nat → Nat) (buf_end : Nat) (n : Nat) (b c : Str_args)
    (hb : b.buf ≤ buf_end) (h : read_str_seq mem buf_end n b = some c) :
    b.buf + n ≤ c.buf ∧ c.buf ≤ buf_end := by
  induction n generalizing b with
  | zero =>
    simp only [read_str_seq, Option.some.injEq] at h
    rw [← h]; exact ⟨Nat.le_refl _, hb⟩
  | succ n ih =>
    unfold read_str_seq at h
    by_cases hok : (read_str_at_most_255_bytes mem buf_end b).1 = 0
    · rw [if_pos hok] at h
      have hg := read_str_guard_of_ok mem buf_end b hok
      have hbuf : (read_str_at_most_255_bytes mem buf_end b).2.buf
          = b.buf + (mem b.buf % 256 + 1) := by
        rw [read_str_ok mem buf_end b hg]
      have := ih _ (by rw [hbuf]; omega) h
      rw [hbuf] at this
      omega
    · rw [if_neg hok] at h
      exact absurd h (by simp)

/-- C26: a successful read from a cursor `p < buf_end` advances the cursor by
exactly `len + 1`, between 1 and 256 bytes, to a position not beyond `buf_end`;
the returned string occupies `[p + 1, p + 1 + len)`, inside `[p, buf_end)`; so
any sequence of `n` successful reads advances the cursor by at least `n` bytes
and never leaves the buffer. -/
theorem read_str_progress (mem : Nat → Nat) (buf_end : Nat) (a : Str_args)
    (_hp : a.buf < buf_end) (hok : (read_str_at_most_255_bytes mem buf_end a).1 = 0) :
    (read_str_at_most_255_bytes mem buf_end a).2.buf
        = a.buf + ((read_str_at_most_255_bytes mem buf_end a).2.len + 1)
      ∧ 1 ≤ (read_str_at_most_255_bytes mem buf_end a).2.buf - a.buf
      ∧ (read_str_at_most_255_bytes mem buf_end a).2.buf - a.buf ≤ 256
      ∧ a.buf < (read_str_at_most_255_bytes mem buf_end a).2.buf
      ∧ (read_str_at_most_255_bytes mem buf_end a).2.buf ≤ buf_end
      ∧ (read_str_at_most_255_bytes mem buf_end a).2.str = a.buf + 1
      ∧ a.buf ≤ (read_str_at_most_255_bytes mem buf_end a).2.str
      ∧ (read_str_at_most_255_bytes mem buf_end a).2.str
          + (read_str_at_most_255_bytes mem buf_end a).2.len ≤ buf_end
      ∧ ∀ (n : Nat) (b c : Str_args), b.buf ≤ buf_end →
          read_str_seq mem buf_end n b = some c → b.buf + n ≤ c.buf ∧ c.buf ≤ buf_end := by
  have hg := read_str_guard_of_ok mem buf_end a hok
  rw [read_str_ok mem buf_end a hg]
  refine ⟨rfl, ?_, ?_, ?_, ?_, rfl, ?_, ?_,
    fun n b c hb h => read_str_seq_advances mem buf_end n b c hb h⟩
  all_goals simp only
  all_goals omega

/-- Witness for C26: two strings `"hi"` and `"x"` in a 5-byte buffer at address
10; the first read moves the cursor from 10 to 13. -/
theorem read_str_progress_witness :
    (read_str_at_most_255_bytes (mem_of 10 [2, 104, 105, 1, 120]) 15 ⟨10, 0, 0, []⟩).2.buf
        = 10 + ((read_str_at_most_255_bytes (mem_of 10 [2, 104, 105, 1, 120]) 15
                  ⟨10, 0, 0, []⟩).2.len + 1)
      ∧ (read_str_at_most_255_bytes (mem_of 10 [2, 104, 105, 1, 120]) 15 ⟨10, 0, 0, []⟩).2.buf
        ≤ 15 :=
  have h := read_str_progress (mem_of 10 [2, 104, 105, 1, 120]) 15 ⟨10, 0, 0, []⟩
    (by decide) (by decide)
  ⟨h.1, h.2.2.2.2.1⟩

/-- C27: a failing read (return value 1) leaves the cursor `*buf`, the output
pointer `*str` and the output length `*len` unchanged. -/
theorem read_str_fail_commits_nothing (mem : Nat → Nat) (buf_end : Nat) (a : Str_args)
    (hfail : (read_str_at_most_255_bytes mem buf_end a).1 = 1) :
    (read_str_at_most_255_bytes mem buf_end a).2.buf = a.buf
      ∧ (read_str_at_most_255_bytes mem buf_end a).2.str = a.str
      ∧ (read_str_at_most_255_bytes mem buf_end a).2.len = a.len := by
  by_cases hc : buf_end ≤ a.buf + mem a.buf % 256
  · rw [read_str_fail mem buf_end a hc]
    exact ⟨rfl, rfl, rfl⟩
  · rw [read_str_ok mem buf_end a (by omega)] at hfail
    exact absurd hfail (show ¬ ((0 : Nat) = 1) by decide)

/-- Witness for C27: a length byte 5 with one byte behind it in a 2-byte buffer;
the outputs keep their values 7 and 9. -/
theorem read_str_fail_commits_nothing_witness :
    (read_str_at_most_255_bytes (mem_of 0 [5, 1]) 2 ⟨0, 7, 9, []⟩).1 = 1
      ∧ (read_str_at_most_255_bytes (mem_of 0 [5, 1]) 2 ⟨0, 7, 9, []⟩).2.buf = 0
      ∧ (read_str_at_most_255_bytes (mem_of 0 [5, 1]) 2 ⟨0, 7, 9, []⟩).2.str = 7
      ∧ (read_str_at_most_255_bytes (mem_of 0 [5, 1]) 2 ⟨0, 7, 9, []⟩).2.len = 9 :=
  ⟨by decide, read_str_fail_commits_nothing (mem_of 0 [5, 1]) 2 ⟨0, 7, 9, []⟩ (by decide)⟩

/-! ## Theorems: accessors and validity of a query event -/

/-- After a sequence of setter calls `db_len` is the length of `m_db` when
`set_db` was among the calls or the two agreed before. -/
theorem call_all_db_len (calls : List Query_setter) (q : Query_event)
    (hcalls : ∀ c ∈ calls, c.arg.length < 2 ^ 32)
    (h : calls.any Query_setter.sets_db = true ∨ q.db_len = q.m_db.length) :
    (q.call_all calls).db_len = (q.call_all calls).m_db.length := by
  induction calls generalizing q with
  | nil =>
    rcases h with h | h
    · exact absurd h (by simp)
    · exact h
  | cons c cs ih =>
    have hc : c.arg.length < 2 ^ 32 := hcalls c (List.mem_cons_self _ _)
    have hcs : ∀ d ∈ cs, d.arg.length < 2 ^ 32 :=
      fun d hd => hcalls d (List.mem_cons_of_mem _ hd)
    show ((c.call q).call_all cs).db_len = ((c.call q).call_all cs).m_db.length
    apply ih _ hcs
    cases c with
    | set_db s => exact Or.inr (Nat.mod_eq_of_lt hc)
    | _ =>
      rcases h with h | h
      · exact Or.inl (by simpa [Query_setter.sets_db] using h)
      · exact Or.inr h

/-- After a sequence of setter calls `q_len` is the length of `m_query` when
`set_query` was among the calls or the two agreed before. -/
theorem call_all_q_len (calls : List Query_setter) (q : Query_event)
    (hcalls : ∀ c ∈ calls, c.arg.length < 2 ^ 32)
    (h : calls.any Query_setter.sets_query = true ∨ q.q_len = q.m_query.length) :
    (q.call_all calls).q_len = (q.call_all calls).m_query.length := by
  induction calls generalizing q with
  | nil =>
    rcases h with h | h
    · exact absurd h (by simp)
    · exact h
  | cons c cs ih =>
    have hc : c.arg.length < 2 ^ 32 := hcalls c (List.mem_cons_self _ _)
    have hcs : ∀ d ∈ cs, d.arg.length < 2 ^ 32 :=
      fun d hd => hcalls d (List.mem_cons_of_mem _ hd)
    show ((c.call q).call_all cs).q_len = ((c.call q).call_all cs).m_query.length
    apply ih _ hcs
    cases c with
    | set_query s => exact Or.inr (Nat.mod_eq_of_lt hc)
    | _ =>
      rcases h with h | h
      · exact Or.inl (by simpa [Query_setter.sets_query] using h)
      · exact Or.inr h

/-- After a sequence of setter calls `catalog_len` is the length of `m_catalog` when
`set_catalog` was among the calls or the two agreed before. -/
theorem call_all_catalog_len (calls : List Query_setter) (q : Query_event)
    (hcalls : ∀ c ∈ calls, c.arg.length < 2 ^ 32)
    (h : calls.any Query_setter.sets_catalog = true ∨ q.catalog_len = q.m_catalog.length) :
    (q.call_all calls).catalog_len = (q.call_all calls).m_catalog.length := by
  induction calls generalizing q with
  | nil =>
    rcases h with h | h
    · exact absurd h (by simp)
    · exact h
  | cons c cs ih =>
    have hc : c.arg.length < 2 ^ 32 := hcalls c (List.mem_cons_self _ _)
    have hcs : ∀ d ∈ cs, d.arg.length < 2 ^ 32 :=
      fun d hd => hcalls d (List.mem_cons_of_mem _ hd)
    show ((c.call q).call_all cs).catalog_len = ((c.call q).call_all cs).m_catalog.length
    apply ih _ hcs
    cases c with
    | set_catalog s => exact Or.inr (Nat.mod_eq_of_lt hc)
    | _ =>
      rcases h with h | h
      · exact Or.inl (by simpa [Query_setter.sets_catalog] using h)
      · exact Or.inr h

/-- After a sequence of setter calls `time_zone_len` is the length of `m_time_zone_str` when
`set_time_zone_str` was among the calls or the two agreed before. -/
theorem call_all_time_zone_len (calls : List Query_setter) (q : Query_event)
    (hcalls : ∀ c ∈ calls, c.arg.length < 2 ^ 32)
    (h : calls.any Query_setter.sets_time_zone = true ∨ q.time_zone_len = q.m_time_zone_str.length) :
    (q.call_all calls).time_zone_len = (q.call_all calls).m_time_zone_str.length := by
  induction calls generalizing q with
  | nil =>
    rcases h with h | h
    · exact absurd h (by simp)
    · exact h
  | cons c cs ih =>
    have hc : c.arg.length < 2 ^ 32 := hcalls c (List.mem_cons_self _ _)
    have hcs : ∀ d ∈ cs, d.arg.length < 2 ^ 32 :=
      fun d hd => hcalls d (List.mem_cons_of_mem _ hd)
    show ((c.call q).call_all cs).time_zone_len = ((c.call q).call_all cs).m_time_zone_str.length
    apply ih _ hcs
    cases c with
    | set_time_zone_str s => exact Or.inr (Nat.mod_eq_of_lt hc)
    | _ =>
      rcases h with h | h
      · exact Or.inl (by simpa [Query_setter.sets_time_zone] using h)
      · exact Or.inr h

/-- C28: for every string `s`, `get_X()` after `set_X(s)` returns `s` for user,
host, time_zone_str, catalog, db and query; for `s` of length below `2 ^ 32`,
`set_db`, `set_query`, `set_catalog` and `set_time_zone_str` set `db_len`,
`q_len`, `catalog_len` and `time_zone_len` to the length of `s`; and after any
sequence of setter calls each of these four length fields whose setter has been
called equals the length of its current string. -/
theorem query_accessors (q : Query_event) (s : List Nat) (hs : s.length < 2 ^ 32)
    (calls : List Query_setter) (hcalls : ∀ c ∈ calls, c.arg.length < 2 ^ 32) :
    (q.set_user s).get_user = s
      ∧ (q.set_host s).get_host = s
      ∧ (q.set_time_zone_str s).get_time_zone_str = s
      ∧ (q.set_catalog s).get_catalog = s
      ∧ (q.set_db s).get_db = s
      ∧ (q.set_query s).get_query = s
      ∧ (q.set_db s).db_len = s.length
      ∧ (q.set_query s).q_len = s.length
      ∧ (q.set_catalog s).catalog_len = s.length
      ∧ (q.set_time_zone_str s).time_zone_len = s.length
      ∧ (calls.any Query_setter.sets_db = true
          → (q.call_all calls).db_len = (q.call_all calls).get_db.length)
      ∧ (calls.any Query_setter.sets_query = true
          → (q.call_all calls).q_len = (q.call_all calls).get_query.length)
      ∧ (calls.any Query_setter.sets_catalog = true
          → (q.call_all calls).catalog_len = (q.call_all calls).get_catalog.length)
      ∧ (calls.any Query_setter.sets_time_zone = true
          → (q.call_all calls).time_zone_len
              = (q.call_all calls).get_time_zone_str.length) :=
  ⟨rfl, rfl, rfl, rfl, rfl, rfl, Nat.mod_eq_of_lt hs, Nat.mod_eq_of_lt hs,
    Nat.mod_eq_of_lt hs, Nat.mod_eq_of_lt hs,
    fun h => call_all_db_len calls q hcalls (Or.inl h),
    fun h => call_all_q_len calls q hcalls (Or.inl h),
    fun h => call_all_catalog_len calls q hcalls (Or.inl h),
    fun h => call_all_time_zone_len calls q hcalls (Or.inl h)⟩

/-- Witness for C28: on an empty query event, `set_db("a")`, `set_query("SELECT 1")`
and `set_db("db1")` in this order leave `db_len = |"db1"|` and
`q_len = |"SELECT 1"|`. -/
theorem query_accessors_witness :
    (Query_event.empty.call_all
        [.set_db (bytes_of "a"), .set_query (bytes_of "SELECT 1"),
         .set_db (bytes_of "db1")]).db_len
        = (Query_event.empty.call_all
            [.set_db (bytes_of "a"), .set_query (bytes_of "SELECT 1"),
             .set_db (bytes_of "db1")]).get_db.length
      ∧ (Query_event.empty.set_query (bytes_of "SELECT 1")).q_len
        = (bytes_of "SELECT 1").length :=
  have h := query_accessors Query_event.empty (bytes_of "SELECT 1") (by decide)
    [.set_db (bytes_of "a"), .set_query (bytes_of "SELECT 1"), .set_db (bytes_of "db1")]
    (by decide)
  ⟨h.2.2.2.2.2.2.2.2.2.2.1 (by decide), h.2.2.2.2.2.2.2.1⟩

/-- C29: `Query_event::is_valid()` is true if and only if the query string is
non-empty; after `set_query(s)` with `s` shorter than `2 ^ 32` it is true if and
only if `q_len` is not 0; it is the same for two events with the same query
string, and no other setter changes it. -/
theorem query_is_valid_iff (q q2 : Query_event) (s : List Nat) (hs : s.length < 2 ^ 32) :
    (q.is_valid = true ↔ q.get_query ≠ [])
      ∧ ((q.set_query s).is_valid = true ↔ (q.set_query s).q_len ≠ 0)
      ∧ ((q.set_query s).is_valid = true ↔ s ≠ [])
      ∧ (q.get_query = q2.get_query → q.is_valid = q2.is_valid)
      ∧ (q.set_db s).is_valid = q.is_valid
      ∧ (q.set_catalog s).is_valid = q.is_valid
      ∧ (q.set_time_zone_str s).is_valid = q.is_valid
      ∧ (q.set_user s).is_valid = q.is_valid
      ∧ (q.set_host s).is_valid = q.is_valid := by
  have hv : ∀ e : Query_event, (e.is_valid = true ↔ e.m_query ≠ []) := by
    intro e
    unfold Query_event.is_valid
    cases e.m_query <;> simp
  have hlen : (q.set_query s).q_len = s.length := Nat.mod_eq_of_lt hs
  have hq : (q.set_query s).m_query = s := rfl
  refine ⟨hv q, ?_, ?_, ?_, rfl, rfl, rfl, rfl, rfl⟩
  · rw [hv, hq, hlen]
    cases s <;> simp
  · rw [hv, hq]
  · intro h
    unfold Query_event.is_valid
    unfold Query_event.get_query at h
    rw [h]

/-- Witness for C29: the query `"SELECT 1"` makes an empty query event valid. -/
theorem query_is_valid_iff_witness :
    (Query_event.empty.set_query (bytes_of "SELECT 1")).is_valid = true
      ∧ Query_event.empty.is_valid = false :=
  have h := query_is_valid_iff Query_event.empty Query_event.empty (bytes_of "SELECT 1")
    (by decide)
  ⟨h.2.2.1.2 (by decide), by decide⟩

end binary_log
